import Mathlib

/-!
# BSPParser: static-prop sub-lump decoding, the query surface and the triangulator

A shallow embedding of `BSPMap::ParseStaticPropLump`, `BSPMap::GetStaticPropInternal`
(both in `BSPParser.h`) and `BSPParser::Utility::ThrowSafeError` (`Utility/ErrorHandling.h`),
and a model of the triangulator and of the generic lump decoder, whose bodies are not part of
the sources, after §4.5 and §4.2 of the specification.

Conventions of the embedding:

* `int32_t` values are `Int`s in `[-2^31, 2^31)`; `size_t` values are `Nat`s below `2^64`.
  A signed value compared with, or multiplied by, a `size_t` is first converted to `size_t`
  (`toSizeT`), i.e. reduced modulo `2^64`, as the usual arithmetic conversions prescribe.
* `int32_t + int32_t` is computed in 32 bits (`wrapInt32`), the two's complement result
  (signed overflow is undefined behaviour in the source language; this is what the usual
  targets compute).
* Pointers into the file are byte offsets relative to `mpData`; a dereference outside the
  `mDataSize` bytes of the file is an outcome of its own (`Outcome.invalidRead`).
* The record types of `BSPStructs` are declared in `FileFormat/Parser.h`; their sizes and the
  decoding of their fields are parameters of the embedding (`Layout`).
* A `float` is its 32-bit pattern; floating-point arithmetic is a parameter (`FloatOps`).
-/

namespace BSPParser

/-! ## Machine integers -/

/-- The value of a signed integer after conversion to the 64-bit `size_t`. -/
def toSizeT (x : Int) : Nat := (x % 18446744073709551616).toNat

/-- The 32-bit two's complement result of an `int32_t` computation. -/
def wrapInt32 (x : Int) : Int := (x + 2147483648) % 4294967296 - 2147483648

/-- Membership in the range of `int32_t`. -/
def IsInt32 (x : Int) : Prop := -2147483648 ≤ x ∧ x < 2147483648

instance (x : Int) : Decidable (IsInt32 x) := by
  unfold IsInt32; exact inferInstance

/-! ## The raw file -/

/-- The unsigned 32-bit little-endian word stored at byte offset `addr`. -/
def wordAt (data : Nat → Nat) (addr : Nat) : Nat :=
  data addr % 256 + 256 * (data (addr + 1) % 256) + 65536 * (data (addr + 2) % 256)
    + 16777216 * (data (addr + 3) % 256)

/-- The `int32_t` stored at byte offset `addr`
(`*reinterpret_cast<const int32_t*>(mpData + addr)`). -/
def int32At (data : Nat → Nat) (addr : Nat) : Int :=
  if wordAt data addr < 2147483648 then (wordAt data addr : Int)
  else (wordAt data addr : Int) - 4294967296

/-- The unsigned 16-bit little-endian value stored at byte offset `addr`. -/
def uint16At (data : Nat → Nat) (addr : Nat) : Nat :=
  data addr % 256 + 256 * (data (addr + 1) % 256)

/-- The file contents after storing the `int32_t` value `v` at byte offset `addr`:
the four bytes at `addr .. addr+3` are replaced, every other byte is unchanged. -/
def storeInt32 (data : Nat → Nat) (addr : Nat) (v : Int) : Nat → Nat :=
  fun a =>
    if a = addr then (v % 4294967296).toNat % 256
    else if a = addr + 1 then (v % 4294967296).toNat / 256 % 256
    else if a = addr + 2 then (v % 4294967296).toNat / 65536 % 256
    else if a = addr + 3 then (v % 4294967296).toNat / 16777216 % 256
    else data a

/-! ## Record types -/

/-- `BSPStructs::Vector` / `BSPStructs::QAngle`: three `float`s, kept as their raw 32-bit
patterns (the accessor only copies them). -/
structure Vector where
  x : Nat
  y : Nat
  z : Nat
  deriving DecidableEq, Repr

/-- The fields of a `StaticPropV4` / `V5` / `V6` record that the accessor reads. -/
structure StaticProp where
  origin : Vector
  angles : Vector
  propType : Nat
  skin : Int
  deriving DecidableEq, Repr

/-- `struct BSPStaticProp`; `model` is a pointer into the file (a byte offset). -/
structure BSPStaticProp where
  pos : Vector
  ang : Vector
  model : Nat
  skin : Int
  deriving DecidableEq, Repr

/-- `BSPStructs::GameLump`, the two fields the static-prop decoder reads (both `int32_t`). -/
structure GameLump where
  offset : Int
  length : Int
  deriving DecidableEq, Repr

/-- A game-lump entry whose fields are `int32_t` values. -/
def GameLump.WF (g : GameLump) : Prop := IsInt32 g.offset ∧ IsInt32 g.length

instance (g : GameLump) : Decidable g.WF := by
  unfold GameLump.WF; exact inferInstance

/-- What `FileFormat/Parser.h` fixes about the record types: `sizeof` of each of the three
record types, the offset of `modelName` inside a dictionary record, and how the fields of a
prop record are laid out (`propAt data addr` is the record starting at byte `addr`). -/
structure Layout where
  szDict : Nat
  szLeaf : Nat
  szProp : Nat
  offModelName : Nat
  propAt : (Nat → Nat) → Nat → StaticProp

/-- Every `sizeof` is at least 1 and fits comfortably in `size_t`. -/
def Layout.WF (L : Layout) : Prop :=
  (1 ≤ L.szDict ∧ L.szDict < 2147483648) ∧ (1 ≤ L.szLeaf ∧ L.szLeaf < 2147483648)
    ∧ (1 ≤ L.szProp ∧ L.szProp < 2147483648)

instance (L : Layout) : Decidable L.WF := by
  unfold Layout.WF; exact inferInstance

/-- The version-4 record layout of the Source engine: 128-byte dictionary records holding the
model name, 2-byte leaf records, 56-byte prop records with `origin` at 0, `angles` at 12,
`propType` at 24 and `skin` at 32. -/
def layoutV4 : Layout where
  szDict := 128
  szLeaf := 2
  szProp := 56
  offModelName := 0
  propAt := fun data addr =>
    { origin := ⟨wordAt data addr, wordAt data (addr + 4), wordAt data (addr + 8)⟩
      angles := ⟨wordAt data (addr + 12), wordAt data (addr + 16), wordAt data (addr + 20)⟩
      propType := uint16At data (addr + 24)
      skin := int32At data (addr + 32) }

/-- Modelled from the spec: `BSPStructs::Edge` (declared in the missing `FileFormat/Parser.h`),
§3 "Edge{vertex0,vertex1}": two indices into the vertex lump. -/
structure Edge where
  vertex0 : Nat
  vertex1 : Nat
  deriving DecidableEq, Repr

/-- Modelled from the spec: `BSPStructs::DispVert` (declared in the missing
`FileFormat/Parser.h`), §4.5: an "offset vector scaled by its stored distance" and a "stored
blend value". -/
structure DispVert where
  vec : Vector
  dist : Nat
  alpha : Nat
  deriving DecidableEq, Repr

/-- Modelled from the spec: the displacement associated with a face (`BSPStructs::DispInfo`
is declared in the missing `FileFormat/Parser.h`), §4.5: its power `p` and the `DispVert`s
of its `(2^p+1)²` grid. -/
structure Displacement where
  power : Nat
  verts : List DispVert
  deriving DecidableEq, Repr

/-- Modelled from the spec: `BSPStructs::Face` as the triangulator reads it (declared in the
missing `FileFormat/Parser.h`), §4.5: flagged no-draw or not, the range of its surfedges, the
associated displacement if any, the normal of its plane, its texinfo index (negative if none). -/
structure Face where
  noDraw : Bool
  firstEdge : Int
  edgeCount : Int
  disp : Option Displacement
  normal : Vector
  texInfo : Int
  deriving DecidableEq, Repr

/-- Modelled from the spec: a descriptor of the header's lump directory
(`BSPStructs::Lump` is declared in the missing `FileFormat/Parser.h`), §3 and §6:
`{offset:int32, length:int32, version:int32, fourCC:uint32}`. -/
structure Lump where
  offset : Int
  length : Int
  version : Int
  fourCC : Nat
  deriving DecidableEq, Repr

/-- Modelled from the spec: `BSPStructs::Header` (declared in the missing
`FileFormat/Parser.h`), §6: identifier, version, the directory of lump descriptors and the
map revision. -/
structure Header where
  ident : Int
  version : Int
  lumps : List Lump
  mapRevision : Int
  deriving DecidableEq, Repr

/-! ## The parsed instance -/

/-- The members of `class BSPMap` that the static-prop decoder, the accessor and the
triangulator touch, together with the members that frame them. A lump view (pointer and count)
is the list of its records; a soup array is the list of its entries (empty for `nullptr`).
Members without an initialiser hold whatever value is passed in. -/
structure BSPMap where
  mIsValid : Bool
  mpData : Nat → Nat
  mDataSize : Nat
  mpHeader : Header
  mNumGameLumps : Nat
  mpVertices : List Vector
  mpEdges : List Edge
  mpSurfEdges : List Int
  mpFaces : List Face
  mpStaticPropDict : Nat
  mNumStaticPropDictEntries : Nat
  mpStaticPropLeaves : Nat
  mNumStaticPropLeaves : Nat
  mStaticPropsVersion : Nat
  mpStaticPropsV4 : Nat
  mpStaticPropsV5 : Nat
  mpStaticPropsV6 : Nat
  mNumStaticProps : Int
  mClockwise : Bool
  mNumTris : Nat
  mpPositions : List Vector
  mpNormals : List Vector
  mpTangents : List Vector
  mpBinormals : List Vector
  mpUVs : List Nat
  mpAlphas : List Nat
  mpTexIndices : List Int

/-- How a call of `ParseStaticPropLump` ends: it returns a `bool`, or it dereferences
`pHeader` at an offset whose four bytes do not lie inside the `mDataSize` bytes of the file
(undefined behaviour in the source). -/
inductive Outcome where
  | returned (b : Bool)
  | invalidRead (addr : Nat)
  deriving DecidableEq, Repr

/-- The effect of a call of `ParseStaticPropLump`: the instance afterwards, the value of the
caller's `*pPtrOut` afterwards, the offsets at which a count was read (in order), and how the
call ended. -/
structure ParseResult where
  map : BSPMap
  ptrOut : Nat
  reads : List Nat
  outcome : Outcome

/-- `BSPMap::ParseStaticPropLump<StaticProp>`, `BSPParser.h` lines 118-177. `ptrOut` is the
value `*pPtrOut` holds on entry; `L.szProp` is `sizeof(StaticProp)`. -/
def ParseStaticPropLump (L : Layout) (m : BSPMap) (gameLump : GameLump) (ptrOut : Nat) :
    ParseResult :=
  -- Game lump under or overflows the file
  if gameLump.offset < 0 ∨
      toSizeT (wrapInt32 (gameLump.offset + gameLump.length)) > m.mDataSize then
    ⟨m, ptrOut, [], .returned false⟩
  else
  let total0 : Nat := 4 * 3
  if total0 > toSizeT gameLump.length then ⟨m, ptrOut, [], .returned false⟩
  else
  let pHeader0 : Nat := gameLump.offset.toNat
  if ¬ (pHeader0 + 4 ≤ m.mDataSize) then ⟨m, ptrOut, [pHeader0], .invalidRead pHeader0⟩
  else
  let d : Int := int32At m.mpData pHeader0
  let total1 : Nat := (total0 + toSizeT d * L.szDict % 18446744073709551616)
    % 18446744073709551616
  if d < 0 ∨ total1 > toSizeT gameLump.length then ⟨m, ptrOut, [pHeader0], .returned false⟩
  else
  -- Save valid number of dict entries; move ptr over the int and save offset ptr
  let m1 : BSPMap :=
    { m with mNumStaticPropDictEntries := toSizeT d, mpStaticPropDict := pHeader0 + 4 }
  let pHeader1 : Nat :=
    pHeader0 + 4 + m1.mNumStaticPropDictEntries * L.szDict % 18446744073709551616
  if ¬ (pHeader1 + 4 ≤ m.mDataSize) then
    ⟨m1, ptrOut, [pHeader0, pHeader1], .invalidRead pHeader1⟩
  else
  let l : Int := int32At m.mpData pHeader1
  let total2 : Nat := (total1 + toSizeT l * L.szLeaf % 18446744073709551616)
    % 18446744073709551616
  if l < 0 ∨ total2 > toSizeT gameLump.length then
    ⟨m1, ptrOut, [pHeader0, pHeader1], .returned false⟩
  else
  -- Save num leaves; move ptr and save
  let m2 : BSPMap :=
    { m1 with mNumStaticPropLeaves := toSizeT l, mpStaticPropLeaves := pHeader1 + 4 }
  let pHeader2 : Nat :=
    pHeader1 + 4 + m2.mNumStaticPropLeaves * L.szLeaf % 18446744073709551616
  if ¬ (pHeader2 + 4 ≤ m.mDataSize) then
    ⟨m2, ptrOut, [pHeader0, pHeader1, pHeader2], .invalidRead pHeader2⟩
  else
  let p : Int := int32At m.mpData pHeader2
  let total3 : Nat := (total2 + toSizeT p * L.szProp % 18446744073709551616)
    % 18446744073709551616
  if p < 0 ∨ total3 ≠ toSizeT gameLump.length then
    ⟨m2, ptrOut, [pHeader0, pHeader1, pHeader2], .returned false⟩
  else
  ⟨{ m2 with mNumStaticProps := p }, pHeader2 + 4, [pHeader0, pHeader1, pHeader2],
    .returned true⟩

/-- The three exception kinds the code raises, with their messages. -/
inductive Exception where
  | runtime_error (msg : String)
  | out_of_range (msg : String)
  deriving DecidableEq, Repr

/-- `BSPMap::GetStaticPropInternal<StaticProp>`, `BSPParser.h` lines 179-196. `pStaticProps`
is the record pointer (a byte offset); `pStaticProps[index]` is the record that starts
`index * sizeof(StaticProp)` bytes further on, and `mpStaticPropDict[dictIdx].modelName` is
the address of the name inside dictionary record `dictIdx`. -/
def GetStaticPropInternal (L : Layout) (m : BSPMap) (index : Int) (pStaticProps : Nat) :
    Except Exception BSPStaticProp :=
  if index < 0 ∨ index ≥ m.mNumStaticProps then
    .error (.out_of_range "Static prop index out of bounds")
  else
    let dictIdx : Nat := (L.propAt m.mpData (pStaticProps + index.toNat * L.szProp)).propType
    if dictIdx ≥ m.mNumStaticPropDictEntries then
      .error (.out_of_range "Static prop dictionary index out of bounds")
    else
      .ok
        { pos := (L.propAt m.mpData (pStaticProps + index.toNat * L.szProp)).origin
          ang := (L.propAt m.mpData (pStaticProps + index.toNat * L.szProp)).angles
          model := m.mpStaticPropDict + dictIdx * L.szDict + L.offModelName
          skin := (L.propAt m.mpData (pStaticProps + index.toNat * L.szProp)).skin }

/-- The C library's `free` on the set of live allocations: `free(nullptr)` does nothing,
otherwise the block is released. The null pointer is `0`. -/
def free (heap : List Nat) (ptr : Nat) : List Nat :=
  if ptr = 0 then heap else heap.filter (fun a => a ≠ ptr)

/-- `BSPParser::Utility::ThrowSafeError`, `Utility/ErrorHandling.h` lines 14-21. The call
takes the pointer variable by reference; the result is the variable and the heap afterwards,
and how the call ends: `.ok ()` would be a normal return, `.error e` is `throw e`. -/
def ThrowSafeError (msg : String) (ptr : Nat) (heap : List Nat) :
    (Nat × List Nat) × Except Exception Unit :=
  let heap1 := free heap ptr
  let ptr1 := 0
  ((ptr1, heap1), .error (.runtime_error msg))

/-! ## The triangulator

`BSPMap::Triangulate`, `BSPMap::GetSurfEdgeVerts`, `BSPMap::IsFaceNodraw`, `BSPMap::GetNumTris`,
`BSPMap::GetNumVertices` and the constructor are declared in `BSPParser.h`; their bodies, and
the lump record types, are not part of the sources. They are modelled from §4.5 of the
specification. -/

/-- Modelled from the spec: the error kinds of §7 (the bodies that raise them are missing). -/
inductive ParseError where
  | FormatError
  | BoundsError
  | AlignmentError
  | CorruptNestedLumpError
  | UnsupportedVersion
  | MalformedFace
  | IndexOutOfRange
  deriving DecidableEq, Repr

/-- Modelled from the spec: the floating-point computations of §4.5 (type `BSPStructs`
arithmetic is missing), which the specification names without fixing their numeric
definition; they are parameters, acting on raw `float` patterns. `bilerp c0 c1 c2 c3 row col g`
is the bilinear interpolation of the quad corners at grid cell `(row, col)`, `displace` adds
the offset vector scaled by its distance, `uv` projects a position onto the texture-info
basis, `tangent` is the first basis vector orthogonalised against the normal, `binormal` is
`cross(normal, tangent)` oriented to the winding. -/
structure FloatOps where
  bilerp : Vector → Vector → Vector → Vector → Nat → Nat → Nat → Vector
  displace : Vector → Vector → Nat → Vector
  uv : Int → Vector → Nat × Nat
  tangent : Int → Vector → Vector
  binormal : Vector → Vector → Bool → Vector

/-- Modelled from the spec: a corner of a triangle before the per-vertex attributes are
attached (the body of `Triangulate` is missing): its position and its alpha (§4.5). -/
structure RawVertex where
  pos : Vector
  alpha : Nat
  deriving DecidableEq, Repr

/-- Modelled from the spec: one vertex of the triangle soup (§3, §4.5), the body of
`Triangulate` being missing: position, normal, tangent, binormal, UV, alpha, texture index. -/
structure SoupVertex where
  pos : Vector
  normal : Vector
  tangent : Vector
  binormal : Vector
  uv : Nat × Nat
  alpha : Nat
  texIndex : Int
  deriving DecidableEq, Repr

/-- Modelled from the spec: the pattern of the `float` 1.0, the alpha of a flat face
(the body of `Triangulate` is missing). -/
def floatOne : Nat := 1065353216

/-- Modelled from the spec: the body of `BSPMap::IsFaceNodraw` is missing; a face is
"flagged no-draw" or not. -/
def IsFaceNodraw (_m : BSPMap) (pFace : Face) : Bool := pFace.noDraw

/-- Modelled from the spec: the body of `BSPMap::GetSurfEdgeVerts` is missing. §4.5: "for a
signed surfedge `s`, the ring vertex is `Edge[s].vertex0` if `s≥0` else `Edge[-s].vertex1`";
the second vertex returned is the other endpoint of that edge. `none` is the `false` return
(an index outside a lump). -/
def GetSurfEdgeVerts (m : BSPMap) (index : Int) : Option (Vector × Vector) :=
  if index < 0 then none
  else
    match m.mpSurfEdges[index.toNat]? with
    | none => none
    | some s =>
      match m.mpEdges[(if s ≥ 0 then s else -s).toNat]? with
      | none => none
      | some e =>
        match m.mpVertices[if s ≥ 0 then e.vertex0 else e.vertex1]?,
            m.mpVertices[if s ≥ 0 then e.vertex1 else e.vertex0]? with
        | some a, some b => some (a, b)
        | _, _ => none

/-- Modelled from the spec: the vertex ring of a face (the body of `Triangulate` is missing),
§4.5 "for each face, walk its surfedges": the ring vertices of surfedges
`first, first+1, ..., first+n-1`, in order. -/
def ringVerts (m : BSPMap) (first : Int) : Nat → Option (List Vector)
  | 0 => some []
  | n + 1 =>
    match ringVerts m first n, GetSurfEdgeVerts m (first + n) with
    | some r, some ab => some (r ++ [ab.1])
    | _, _ => none

/-- Modelled from the spec: flat fan triangulation (the body of `Triangulate` is missing),
§4.5 "pivot = ring[0]; emit triangles `(ring[0], ring[i], ring[i+1])` for `i=1..ringLen-2`". -/
def fanTris {α : Type} : List α → List (α × α × α)
  | [] => []
  | p :: rest => (rest.zip rest.tail).map (fun ab => (p, ab.1, ab.2))

/-- Modelled from the spec: the two triangles of grid cell `(row, col)` (the body of
`Triangulate` is missing), §4.5 "split each grid cell into two triangles with the same
winding convention as flat faces"; the cell is cut along the diagonal from `(row, col)`. -/
def cellTris {α : Type} (pt : Nat → Nat → α) (row col : Nat) : List (α × α × α) :=
  [(pt row col, pt (row + 1) col, pt (row + 1) (col + 1)),
   (pt row col, pt (row + 1) (col + 1), pt row (col + 1))]

/-- Modelled from the spec: the triangles of a displacement grid of dimension `g` (the body
of `Triangulate` is missing): the cells `(row, col)` with `row, col < g - 1`, row by row. -/
def gridTris {α : Type} (pt : Nat → Nat → α) (g : Nat) : List (α × α × α) :=
  (List.range (g - 1)).flatMap (fun row => (List.range (g - 1)).flatMap (fun col => cellTris pt row col))

/-- Modelled from the spec: a grid vertex of a displacement (the body of `Triangulate` is
missing), §4.5 "bilinear-interpolate a base position for each grid cell; add the
corresponding `DispVert` offset vector scaled by its stored distance"; its alpha is "the
displacement vertex's stored blend value". The grid is stored row by row. -/
def gridPoint (F : FloatOps) (d : Displacement) (c0 c1 c2 c3 : Vector) (g row col : Nat) :
    RawVertex :=
  { pos := F.displace (F.bilerp c0 c1 c2 c3 row col g)
      (d.verts.getD (row * g + col) ⟨⟨0, 0, 0⟩, 0, 0⟩).vec
      (d.verts.getD (row * g + col) ⟨⟨0, 0, 0⟩, 0, 0⟩).dist
    alpha := (d.verts.getD (row * g + col) ⟨⟨0, 0, 0⟩, 0, 0⟩).alpha }

/-- Modelled from the spec: the per-vertex attributes (the body of `Triangulate` is missing),
§4.5: normal = the face plane's normal, UV = projection of the position, tangent = first
basis vector orthogonalised against the normal, binormal = `cross(normal, tangent)` oriented
to the winding, texture index = the face's texinfo index or the sentinel -1. -/
def soupVertex (F : FloatOps) (f : Face) (clockwise : Bool) (v : RawVertex) : SoupVertex :=
  { pos := v.pos
    normal := f.normal
    tangent := F.tangent f.texInfo f.normal
    binormal := F.binormal f.normal (F.tangent f.texInfo f.normal) clockwise
    uv := F.uv f.texInfo v.pos
    alpha := v.alpha
    texIndex := if f.texInfo < 0 then -1 else f.texInfo }

/-- Modelled from the spec: the winding contract (the body of `Triangulate` is missing),
§4.5 "toggling the flag swaps exactly the last two vertices of every triangle". -/
def wind {α : Type} (clockwise : Bool) (t : α × α × α) : α × α × α :=
  if clockwise then t else (t.1, t.2.2, t.2.1)

/-- Modelled from the spec: pass 1 of `Triangulate` for one face (the body is missing), §4.5:
a no-draw face is skipped; a face with a displacement of power `p ∈ {2,3,4}` "must reference
exactly 4 edges" and "contributes `(g-1)²×2` triangles" with `g = 2^p+1`; a flat face
"contributes `max(0, edgeCount-2)` triangles". An unknown power is `UnsupportedVersion`, a
non-quad displacement face `MalformedFace` (§7). -/
def faceTriCount (m : BSPMap) (f : Face) : Except ParseError Nat :=
  if IsFaceNodraw m f then .ok 0
  else
    match f.disp with
    | some d =>
      if f.edgeCount ≠ 4 then .error .MalformedFace
      else if ¬ (d.power = 2 ∨ d.power = 3 ∨ d.power = 4) then .error .UnsupportedVersion
      else .ok ((2 ^ d.power + 1 - 1) ^ 2 * 2)
    | none => .ok (max 0 (f.edgeCount - 2)).toNat

/-- Modelled from the spec: pass 1 of `Triangulate` (the body is missing), §4.5 "sum all
contributions to get the exact final triangle count; any face-level failure aborts the
entire operation". -/
def countTris (m : BSPMap) : List Face → Except ParseError Nat
  | [] => .ok 0
  | f :: fs =>
    match faceTriCount m f with
    | .error e => .error e
    | .ok k =>
      match countTris m fs with
      | .error e => .error e
      | .ok n => .ok (k + n)

/-- Modelled from the spec: the raw triangles of one face in pass 2 of `Triangulate` (the
body is missing), §4.5: the ring is reconstructed from the surfedges; a flat face is fanned
with alpha 1.0; the four ring vertices of a displacement face are the quad corners of its
grid. A ring that cannot be reconstructed, or a displacement with too few `DispVert`s, is
`MalformedFace`. -/
def faceRawTris (F : FloatOps) (m : BSPMap) (f : Face) :
    Except ParseError (List (RawVertex × RawVertex × RawVertex)) :=
  if IsFaceNodraw m f then .ok []
  else
    match ringVerts m f.firstEdge f.edgeCount.toNat with
    | none => .error .MalformedFace
    | some ring =>
      match f.disp with
      | none => .ok (fanTris (ring.map (fun v => (⟨v, floatOne⟩ : RawVertex))))
      | some d =>
        if f.edgeCount ≠ 4 then .error .MalformedFace
        else if ¬ (d.power = 2 ∨ d.power = 3 ∨ d.power = 4) then .error .UnsupportedVersion
        else if d.verts.length < (2 ^ d.power + 1) * (2 ^ d.power + 1) then .error .MalformedFace
        else
          match ring with
          | [c0, c1, c2, c3] =>
            .ok (gridTris (gridPoint F d c0 c1 c2 c3 (2 ^ d.power + 1)) (2 ^ d.power + 1))
          | _ => .error .MalformedFace

/-- Modelled from the spec: the triangles of one face in pass 2 of `Triangulate` (the body is
missing): the raw triangles with the per-vertex attributes attached, in the winding order the
flag selects. -/
def faceTris (F : FloatOps) (m : BSPMap) (f : Face) :
    Except ParseError (List (SoupVertex × SoupVertex × SoupVertex)) :=
  match faceRawTris F m f with
  | .error e => .error e
  | .ok ts =>
    .ok (ts.map (fun t => wind m.mClockwise
      (soupVertex F f m.mClockwise t.1, soupVertex F f m.mClockwise t.2.1,
        soupVertex F f m.mClockwise t.2.2)))

/-- Modelled from the spec: pass 2 of `Triangulate` over all faces (the body is missing):
the triangles of the faces, face after face; "if any face fails validation ... abort with
the originating error". -/
def fillTris (F : FloatOps) (m : BSPMap) :
    List Face → Except ParseError (List (SoupVertex × SoupVertex × SoupVertex))
  | [] => .ok []
  | f :: fs =>
    match faceTris F m f with
    | .error e => .error e
    | .ok ts =>
      match fillTris F m fs with
      | .error e => .error e
      | .ok rest => .ok (ts ++ rest)

/-- One attribute of the three vertices of every triangle, flattened: the layout of each
parallel array of the soup (three entries per triangle). -/
def soupArray {α β : Type} (attr : α → β) (tris : List (α × α × α)) : List β :=
  tris.flatMap (fun t => [attr t.1, attr t.2.1, attr t.2.2])

/-- Modelled from the spec: `BSPMap::Triangulate` (the body is missing), §4.5 "two-pass,
allocation-exact": pass 1 computes the triangle count, pass 2 fills the seven parallel arrays
allocated at that size (UVs take two entries per vertex); a failure in either pass leaves no
soup behind. -/
def Triangulate (F : FloatOps) (m : BSPMap) : Except ParseError BSPMap :=
  match countTris m m.mpFaces with
  | .error e => .error e
  | .ok n =>
    match fillTris F m m.mpFaces with
    | .error e => .error e
    | .ok tris =>
      .ok { m with
        mNumTris := n
        mpPositions := soupArray SoupVertex.pos tris
        mpNormals := soupArray SoupVertex.normal tris
        mpTangents := soupArray SoupVertex.tangent tris
        mpBinormals := soupArray SoupVertex.binormal tris
        mpUVs := (soupArray SoupVertex.uv tris).flatMap (fun p => [p.1, p.2])
        mpAlphas := soupArray SoupVertex.alpha tris
        mpTexIndices := soupArray SoupVertex.texIndex tris }

/-- Modelled from the spec: the constructor `BSPMap::BSPMap` from the decoded lumps on (the
body is missing; header and lump decoding are not modelled): `lumps` is the instance with its
raw lump views in place, the flag is stored, the level is triangulated, and the instance is
valid only if that succeeds (§4.6 "construction either yields a fully valid,
queryable instance or a propagated failure"). -/
def construct (F : FloatOps) (lumps : BSPMap) (clockwise : Bool) : Except ParseError BSPMap :=
  match Triangulate F { lumps with mClockwise := clockwise } with
  | .error e => .error e
  | .ok m => .ok { m with mIsValid := true }

/-- Modelled from the spec: `BSPMap::GetNumTris` (the body is missing), "the number of
triangles in the triangulated BSP data". -/
def GetNumTris (m : BSPMap) : Nat := m.mNumTris

/-- Modelled from the spec: `BSPMap::GetNumVertices` (the body is missing), three vertices
per triangle (§6 "all length `3×triangleCount`"). -/
def GetNumVertices (m : BSPMap) : Nat := m.mNumTris * 3

/-- The number of triangles the contract attributes to a drawn face: `(2^p)^2 * 2` for a
displacement face of power `p`, `max(0, edgeCount - 2)` for a flat face. -/
def triContribution (f : Face) : Nat :=
  match f.disp with
  | some d => (2 ^ d.power) ^ 2 * 2
  | none => (max 0 (f.edgeCount - 2)).toNat

/-- The sum of the contributions of the faces that are not flagged no-draw. -/
def expectedTriCount (fs : List Face) : Nat :=
  ((fs.filter (fun f => !f.noDraw)).map triContribution).sum

/-- The entries of two soup arrays agree on the first vertex of each of the first `n`
triangles and are exchanged on its second and third vertex. -/
def SwappedLastTwo {β : Type} (xs ys : List β) (n : Nat) : Prop :=
  ∀ k, k < n → ∃ v0 v1 v2,
    (xs[3 * k]? = some v0 ∧ xs[3 * k + 1]? = some v1 ∧ xs[3 * k + 2]? = some v2)
    ∧ (ys[3 * k]? = some v0 ∧ ys[3 * k + 1]? = some v2 ∧ ys[3 * k + 2]? = some v1)

/-- Triangle `tb` is triangle `ta` with its second and third vertex exchanged, as far as
the attribute `attr` can tell. -/
def Swap23 {β : Type} (attr : SoupVertex → β)
    (ta tb : SoupVertex × SoupVertex × SoupVertex) : Prop :=
  attr tb.1 = attr ta.1 ∧ attr tb.2.1 = attr ta.2.2 ∧ attr tb.2.2 = attr ta.2.1

/-- The vertex `v` is the ring vertex the contract prescribes for the surfedge at `index`:
with `s` the signed surfedge value stored there, `v` is the `vertex0` endpoint of `Edge[s]`
when `s ≥ 0` and the `vertex1` endpoint of `Edge[-s]` when `s < 0`. -/
def IsRingVertex (m : BSPMap) (index : Int) (v : Vector) : Prop :=
  0 ≤ index ∧ ∃ s e, m.mpSurfEdges[index.toNat]? = some s
    ∧ ((0 ≤ s ∧ m.mpEdges[s.toNat]? = some e ∧ m.mpVertices[e.vertex0]? = some v)
      ∨ (s < 0 ∧ m.mpEdges[(-s).toNat]? = some e ∧ m.mpVertices[e.vertex1]? = some v))

/-! ## The quantities the decoder's contract speaks about -/

/-- The dictionary count `d`: the `int32_t` at the start of the sub-lump. -/
def dictCount (m : BSPMap) (g : GameLump) : Int := int32At m.mpData g.offset.toNat

/-- Where the leaf count is stored: `offset + 4 + d * sizeof(StaticPropDict)`. -/
def leafCountAddr (L : Layout) (m : BSPMap) (g : GameLump) : Nat :=
  g.offset.toNat + 4 + (dictCount m g).toNat * L.szDict

/-- The leaf count `l`. -/
def leafCount (L : Layout) (m : BSPMap) (g : GameLump) : Int :=
  int32At m.mpData (leafCountAddr L m g)

/-- Where the prop count is stored:
`offset + 8 + d * sizeof(StaticPropDict) + l * sizeof(StaticPropLeaf)`. -/
def propCountAddr (L : Layout) (m : BSPMap) (g : GameLump) : Nat :=
  leafCountAddr L m g + 4 + (leafCount L m g).toNat * L.szLeaf

/-- The prop count `p`. -/
def propCount (L : Layout) (m : BSPMap) (g : GameLump) : Int :=
  int32At m.mpData (propCountAddr L m g)

/-- The byte size the three counts describe:
`12 + d * sizeof(dict) + l * sizeof(leaf) + p * sizeof(prop)`, as an exact integer. -/
def derivedSize (L : Layout) (m : BSPMap) (g : GameLump) : Int :=
  12 + dictCount m g * L.szDict + leafCount L m g * L.szLeaf + propCount L m g * L.szProp

/-- The instance with the file contents replaced by `data` (all other members unchanged). -/
def BSPMap.withData (m : BSPMap) (data : Nat → Nat) : BSPMap := { m with mpData := data }

/-- The instance over the same file with the `int32_t` at byte offset `addr` replaced by `v`:
every other byte of the file, and every member, is unchanged. -/
def BSPMap.withCount (m : BSPMap) (addr : Nat) (v : Int) : BSPMap :=
  m.withData (storeInt32 m.mpData addr v)

/-! ## Concrete inputs -/

/-- The instance as the member initialisers leave it, over the file `data` of `size` bytes. -/
def BSPMap.fresh (data : Nat → Nat) (size : Nat) : BSPMap :=
  { mIsValid := false, mpData := data, mDataSize := size, mpHeader := ⟨0, 0, [], 0⟩,
    mNumGameLumps := 0, mpVertices := [], mpEdges := [], mpSurfEdges := [], mpFaces := [],
    mpStaticPropDict := 0, mNumStaticPropDictEntries := 0, mpStaticPropLeaves := 0,
    mNumStaticPropLeaves := 0, mStaticPropsVersion := 0, mpStaticPropsV4 := 0,
    mpStaticPropsV5 := 0, mpStaticPropsV6 := 0, mNumStaticProps := 0, mClockwise := true,
    mNumTris := 0, mpPositions := [], mpNormals := [], mpTangents := [], mpBinormals := [],
    mpUVs := [], mpAlphas := [], mpTexIndices := [] }

/-- A lump made of the last 12 bytes of a file of 2^31 bytes. -/
def lastBytesLump : GameLump := ⟨2147483636, 12⟩

/-- A game-lump entry with a negative length: it starts at byte 3000 and "ends" at 1500. -/
def negLump : GameLump := ⟨3000, -1500⟩

/-- The entry of a sub-lump that fills a 144-byte file. -/
def shiftLump : GameLump := ⟨0, 144⟩

/-- The entry of a sub-lump that fills a 68-byte file. -/
def onePropLump : GameLump := ⟨0, 68⟩

/-- The entry of a sub-lump that fills a 324-byte file. -/
def twoDictLump : GameLump := ⟨0, 324⟩

/-- A game-lump entry of length -4 that starts at the very end of a 4096-byte file. -/
def tailLump : GameLump := ⟨4096, -4⟩

/-- An entry one byte shorter than the 68-byte sub-lump it points at. -/
def shortLump : GameLump := ⟨0, 67⟩

/-- A file of zero bytes. -/
def zeroData : Nat → Nat := fun _ => 0

/-- A stand-in for the floating-point operations, to evaluate the triangulator on examples. -/
def plainOps : FloatOps where
  bilerp := fun c0 _ _ _ row col _ => ⟨c0.x + row, c0.y + col, c0.z⟩
  displace := fun b v _ => ⟨b.x + v.x, b.y + v.y, b.z + v.z⟩
  uv := fun _ p => (p.x, p.y)
  tangent := fun _ n => n
  binormal := fun n _ cw => if cw then n else ⟨n.z, n.y, n.x⟩

/-- A flat quad: 4 vertices, 4 edges (edge 0 is unused), 4 surfedges, no displacement. -/
def quadFace : Face :=
  { noDraw := false, firstEdge := 0, edgeCount := 4, disp := none, normal := ⟨0, 0, 1⟩,
    texInfo := 0 }

/-- The same quad carrying a displacement of power 2 (a 5 by 5 grid of `DispVert`s). -/
def dispFace : Face :=
  { quadFace with disp := some ⟨2, List.replicate 25 ⟨⟨0, 0, 0⟩, 0, 0⟩⟩ }

/-- The decoded lumps of a level that consists of the one face `f` over a unit square; the
last surfedge is negative, so it runs edge 4 backwards. -/
def oneFaceMap (f : Face) : BSPMap :=
  { BSPMap.fresh zeroData 0 with
    mpVertices := [⟨0, 0, 0⟩, ⟨1, 0, 0⟩, ⟨1, 1, 0⟩, ⟨0, 1, 0⟩]
    mpEdges := [⟨0, 0⟩, ⟨0, 1⟩, ⟨1, 2⟩, ⟨2, 3⟩, ⟨0, 3⟩]
    mpSurfEdges := [1, 2, 3, -4]
    mpFaces := [f] }

/-- The soup of the one-quad level constructed clockwise. -/
def quadSoup : BSPMap :=
  match construct plainOps (oneFaceMap quadFace) true with
  | .ok q => q
  | .error _ => oneFaceMap quadFace


/-- A 144-byte sub-lump: no dictionary records, 66 leaf records (132 bytes) of which
record 62 holds the value 2, no prop records. -/
def shiftData : Nat → Nat := fun a => if a = 4 then 66 else if a = 132 then 2 else 0

/-- A 68-byte sub-lump: no dictionary records, no leaf records, one zeroed prop record. -/
def onePropData : Nat → Nat := fun a => if a = 8 then 1 else 0

/-- A 324-byte sub-lump: two dictionary records, no leaf records, one prop record whose
`propType` is 1 and whose `skin` is 7. -/
def twoDictData : Nat → Nat :=
  fun a => if a = 0 then 2 else if a = 264 then 1 else if a = 292 then 1
    else if a = 300 then 7 else 0

/-! ## Arithmetic of the machine integers and of the file -/

theorem toSizeT_of_nonneg {x : Int} (h0 : 0 ≤ x) (h1 : x < 18446744073709551616) :
    toSizeT x = x.toNat := by
  unfold toSizeT; omega

theorem toSizeT_of_neg {x : Int} (h0 : x < 0) (h1 : -2147483648 ≤ x) :
    18446744071562067968 ≤ toSizeT x := by
  unfold toSizeT; omega

theorem toSizeT_lt (x : Int) : toSizeT x < 18446744073709551616 := by
  unfold toSizeT; omega

theorem wordAt_lt (data : Nat → Nat) (a : Nat) : wordAt data a < 4294967296 := by
  unfold wordAt; omega

theorem int32At_isInt32 (data : Nat → Nat) (a : Nat) : IsInt32 (int32At data a) := by
  have := wordAt_lt data a
  unfold int32At IsInt32
  split_ifs <;> omega

theorem mul_lt_two62 {a b : Nat} (ha : a < 2147483648) (hb : b < 2147483648) :
    a * b < 4611686018427387904 := by
  calc a * b ≤ 2147483647 * 2147483647 := Nat.mul_le_mul (by omega) (by omega)
    _ < 4611686018427387904 := by norm_num

theorem toSizeT_mul_size {d : Int} (hd : IsInt32 d) (h0 : 0 ≤ d) {sz : Nat}
    (hsz : sz < 2147483648) :
    toSizeT d * sz % 18446744073709551616 = d.toNat * sz ∧ d.toNat * sz < 4611686018427387904
      ∧ ((d.toNat * sz : Nat) : Int) = d * sz := by
  have e : toSizeT d = d.toNat := toSizeT_of_nonneg h0 (by unfold IsInt32 at hd; omega)
  have hlt : d.toNat < 2147483648 := by unfold IsInt32 at hd; omega
  have hb := mul_lt_two62 hlt hsz
  refine ⟨?_, hb, ?_⟩
  · rw [e]; exact Nat.mod_eq_of_lt (by omega)
  · push_cast; rw [Int.toNat_of_nonneg h0]

/-- The result of the call on an input that meets the acceptance conditions. -/
theorem parse_of_accept (L : Layout) (hL : L.WF) (m : BSPMap) (g : GameLump) (hg : g.WF)
    (ptrOut : Nat) (o0 : 0 ≤ g.offset)
    (hsum : toSizeT (wrapInt32 (g.offset + g.length)) ≤ m.mDataSize)
    (d0 : 0 ≤ dictCount m g) (l0 : 0 ≤ leafCount L m g) (p0 : 0 ≤ propCount L m g)
    (hsz : derivedSize L m g = g.length) :
    ParseStaticPropLump L m g ptrOut =
      ⟨{ m with
          mNumStaticPropDictEntries := (dictCount m g).toNat
          mpStaticPropDict := g.offset.toNat + 4
          mNumStaticPropLeaves := (leafCount L m g).toNat
          mpStaticPropLeaves := leafCountAddr L m g + 4
          mNumStaticProps := propCount L m g },
        propCountAddr L m g + 4,
        [g.offset.toNat, leafCountAddr L m g, propCountAddr L m g],
        .returned true⟩ := by
  obtain ⟨⟨hD1, hD2⟩, ⟨hL1, hL2⟩, hP1, hP2⟩ := hL
  obtain ⟨⟨ho1, ho2⟩, hl1, hl2⟩ := hg
  have hd := int32At_isInt32 m.mpData g.offset.toNat
  have hl := int32At_isInt32 m.mpData (leafCountAddr L m g)
  have hp := int32At_isInt32 m.mpData (propCountAddr L m g)
  unfold derivedSize propCount at *
  unfold propCountAddr leafCount at *
  unfold leafCountAddr dictCount at *
  unfold ParseStaticPropLump
  simp only []
  obtain ⟨e1, b1, k1⟩ := toSizeT_mul_size hd d0 hD2
  obtain ⟨e2, b2, k2⟩ := toSizeT_mul_size hl l0 hL2
  obtain ⟨e3, b3, k3⟩ := toSizeT_mul_size hp p0 hP2
  have hlen : toSizeT g.length = g.length.toNat := toSizeT_of_nonneg (by omega) (by omega)
  have hle : g.offset + g.length ≤ m.mDataSize := by
    unfold toSizeT wrapInt32 at hsum; omega
  have t1 : (4 * 3 + (int32At m.mpData g.offset.toNat).toNat * L.szDict)
      % 18446744073709551616
      = 4 * 3 + (int32At m.mpData g.offset.toNat).toNat * L.szDict :=
    Nat.mod_eq_of_lt (by omega)
  have t2 : (4 * 3 + (int32At m.mpData g.offset.toNat).toNat * L.szDict
      + (int32At m.mpData (g.offset.toNat + 4
          + (int32At m.mpData g.offset.toNat).toNat * L.szDict)).toNat * L.szLeaf)
      % 18446744073709551616
      = 4 * 3 + (int32At m.mpData g.offset.toNat).toNat * L.szDict
      + (int32At m.mpData (g.offset.toNat + 4
          + (int32At m.mpData g.offset.toNat).toNat * L.szDict)).toNat * L.szLeaf :=
    Nat.mod_eq_of_lt (by omega)
  have t3 : (4 * 3 + (int32At m.mpData g.offset.toNat).toNat * L.szDict
      + (int32At m.mpData (g.offset.toNat + 4
          + (int32At m.mpData g.offset.toNat).toNat * L.szDict)).toNat * L.szLeaf
      + (int32At m.mpData
        (g.offset.toNat + 4 + (int32At m.mpData g.offset.toNat).toNat * L.szDict + 4 +
          (int32At m.mpData (g.offset.toNat + 4
            + (int32At m.mpData g.offset.toNat).toNat * L.szDict)).toNat * L.szLeaf)).toNat
          * L.szProp)
      % 18446744073709551616
      = 4 * 3 + (int32At m.mpData g.offset.toNat).toNat * L.szDict
      + (int32At m.mpData (g.offset.toNat + 4
          + (int32At m.mpData g.offset.toNat).toNat * L.szDict)).toNat * L.szLeaf
      + (int32At m.mpData
        (g.offset.toNat + 4 + (int32At m.mpData g.offset.toNat).toNat * L.szDict + 4 +
          (int32At m.mpData (g.offset.toNat + 4
            + (int32At m.mpData g.offset.toNat).toNat * L.szDict)).toNat * L.szLeaf)).toNat
          * L.szProp :=
    Nat.mod_eq_of_lt (by omega)
  simp only [e1, e2, e3, t1, t2, t3, hlen]
  rw [if_neg (by omega), if_neg (by omega), if_neg (by omega)]
  rw [if_neg (by omega), if_neg (by omega), if_neg (by omega), if_neg (by omega),
    if_neg (by omega)]
  rw [toSizeT_of_nonneg d0 (by unfold IsInt32 at hd; omega),
    toSizeT_of_nonneg l0 (by unfold IsInt32 at hl; omega)]

set_option maxHeartbeats 1000000 in
/-- Acceptance, characterised: the call returns `true` exactly when the offset is
non-negative, the code's own end-of-lump check passes, the three counts are non-negative and
the size they describe is the declared length. -/
theorem parse_true_iff (L : Layout) (hL : L.WF) (m : BSPMap) (g : GameLump) (hg : g.WF)
    (ptrOut : Nat) :
    (ParseStaticPropLump L m g ptrOut).outcome = .returned true ↔
      (0 ≤ g.offset ∧ toSizeT (wrapInt32 (g.offset + g.length)) ≤ m.mDataSize
        ∧ 0 ≤ dictCount m g ∧ 0 ≤ leafCount L m g ∧ 0 ≤ propCount L m g
        ∧ derivedSize L m g = g.length) := by
  have hL' := hL
  have hg' := hg
  obtain ⟨⟨hD1, hD2⟩, ⟨hL1, hL2⟩, hP1, hP2⟩ := hL'
  obtain ⟨⟨ho1, ho2⟩, hl1, hl2⟩ := hg'
  have hd := int32At_isInt32 m.mpData g.offset.toNat
  have hl := int32At_isInt32 m.mpData (leafCountAddr L m g)
  have hp := int32At_isInt32 m.mpData (propCountAddr L m g)
  constructor
  · intro h
    unfold derivedSize propCount
    unfold propCountAddr leafCount at *
    unfold leafCountAddr dictCount at *
    unfold ParseStaticPropLump at h
    simp only [] at h
    split_ifs at h with c1 c2 c3 c4 c5 c6 c7 c8
    all_goals first | (exfalso; revert h; simp; done) | skip
    have d0 : 0 ≤ int32At m.mpData g.offset.toNat := by
      by_contra hc; exact c4 (Or.inl (by omega))
    obtain ⟨e1, b1, k1⟩ := toSizeT_mul_size hd d0 hD2
    rw [e1] at c4 c5 c6 c7 c8
    have l0 : 0 ≤ int32At m.mpData
        (g.offset.toNat + 4 + (int32At m.mpData g.offset.toNat).toNat * L.szDict) := by
      by_contra hc; exact c6 (Or.inl (by omega))
    obtain ⟨e2, b2, k2⟩ := toSizeT_mul_size hl l0 hL2
    rw [e2] at c6 c7 c8
    have p0 : 0 ≤ int32At m.mpData
        (g.offset.toNat + 4 + (int32At m.mpData g.offset.toNat).toNat * L.szDict + 4 +
          (int32At m.mpData (g.offset.toNat + 4
            + (int32At m.mpData g.offset.toNat).toNat * L.szDict)).toNat * L.szLeaf) := by
      by_contra hc; exact c8 (Or.inl (by omega))
    obtain ⟨e3, b3, k3⟩ := toSizeT_mul_size hp p0 hP2
    rw [e3] at c8
    clear e1 e2 e3
    rw [Nat.mod_eq_of_lt (by omega : 4 * 3 + (int32At m.mpData g.offset.toNat).toNat * L.szDict
      < 18446744073709551616)] at c4 c6 c8
    rw [Nat.mod_eq_of_lt (by omega : 4 * 3 + (int32At m.mpData g.offset.toNat).toNat * L.szDict
      + (int32At m.mpData (g.offset.toNat + 4
            + (int32At m.mpData g.offset.toNat).toNat * L.szDict)).toNat * L.szLeaf
      < 18446744073709551616)] at c6 c8
    rw [Nat.mod_eq_of_lt (by omega : 4 * 3 + (int32At m.mpData g.offset.toNat).toNat * L.szDict
      + (int32At m.mpData (g.offset.toNat + 4
            + (int32At m.mpData g.offset.toNat).toNat * L.szDict)).toNat * L.szLeaf
      + (int32At m.mpData
        (g.offset.toNat + 4 + (int32At m.mpData g.offset.toNat).toNat * L.szDict + 4 +
          (int32At m.mpData (g.offset.toNat + 4
            + (int32At m.mpData g.offset.toNat).toNat * L.szDict)).toNat * L.szLeaf)).toNat
          * L.szProp
      < 18446744073709551616)] at c8
    push_neg at c1 c8
    have hsum := c1.2
    have o0 := c1.1
    have c8' := c8.2
    clear c1 c2 c3 c4 c5 c6 c7 c8 hd hl hp
    have len0 : 0 ≤ g.length := by
      by_contra hc
      have := toSizeT_of_neg (not_le.mp hc) hl1
      clear hsum
      omega
    have hlen : toSizeT g.length = g.length.toNat := toSizeT_of_nonneg len0 (by omega)
    rw [hlen] at c8'
    refine ⟨o0, hsum, d0, l0, p0, ?_⟩
    clear hsum
    omega
  · rintro ⟨o0, hsum, d0, l0, p0, hsz⟩
    rw [parse_of_accept L hL m g hg ptrOut o0 hsum d0 l0 p0 hsz]

/-- What an accepted call leaves behind: the three counts and the three section pointers. -/
theorem parse_true_map (L : Layout) (hL : L.WF) (m : BSPMap) (g : GameLump) (hg : g.WF)
    (ptrOut : Nat) (h : (ParseStaticPropLump L m g ptrOut).outcome = .returned true) :
    ParseStaticPropLump L m g ptrOut =
      ⟨{ m with
          mNumStaticPropDictEntries := (dictCount m g).toNat
          mpStaticPropDict := g.offset.toNat + 4
          mNumStaticPropLeaves := (leafCount L m g).toNat
          mpStaticPropLeaves := leafCountAddr L m g + 4
          mNumStaticProps := propCount L m g },
        propCountAddr L m g + 4,
        [g.offset.toNat, leafCountAddr L m g, propCountAddr L m g],
        .returned true⟩ := by
  obtain ⟨o0, hsum, d0, l0, p0, hsz⟩ := (parse_true_iff L hL m g hg ptrOut).mp h
  exact parse_of_accept L hL m g hg ptrOut o0 hsum d0 l0 p0 hsz

/-- With a non-negative declared length the call never reads outside the file: it returns,
and every count it reads lies inside the declared lump range and inside the file. -/
theorem parse_reads_ok (L : Layout) (hL : L.WF) (m : BSPMap) (g : GameLump) (hg : g.WF)
    (ptrOut : Nat) (hlen : 0 ≤ g.length) :
    (∃ b, (ParseStaticPropLump L m g ptrOut).outcome = .returned b)
      ∧ ∀ a ∈ (ParseStaticPropLump L m g ptrOut).reads,
          g.offset ≤ a ∧ (a : Int) + 4 ≤ g.offset + g.length ∧ a + 4 ≤ m.mDataSize := by
  obtain ⟨⟨hD1, hD2⟩, ⟨hL1, hL2⟩, hP1, hP2⟩ := hL
  obtain ⟨⟨ho1, ho2⟩, hl1, hl2⟩ := hg
  have hd := int32At_isInt32 m.mpData g.offset.toNat
  have hl := int32At_isInt32 m.mpData (leafCountAddr L m g)
  have hlenT : toSizeT g.length = g.length.toNat := toSizeT_of_nonneg hlen (by omega)
  unfold leafCountAddr dictCount at hl
  unfold ParseStaticPropLump
  simp only []
  by_cases c1 : g.offset < 0 ∨ toSizeT (wrapInt32 (g.offset + g.length)) > m.mDataSize
  · rw [if_pos c1]; exact ⟨⟨_, rfl⟩, by simp⟩
  rw [if_neg c1]
  push_neg at c1
  have hle : g.offset + g.length ≤ m.mDataSize := by
    have := c1.2
    unfold toSizeT wrapInt32 at this; omega
  by_cases c2 : 4 * 3 > toSizeT g.length
  · rw [if_pos c2]; exact ⟨⟨_, rfl⟩, by simp⟩
  rw [if_neg c2, if_neg (by omega)]
  by_cases c4 : int32At m.mpData g.offset.toNat < 0 ∨
      (4 * 3 + toSizeT (int32At m.mpData g.offset.toNat) * L.szDict % 18446744073709551616)
        % 18446744073709551616 > toSizeT g.length
  · rw [if_pos c4]
    refine ⟨⟨_, rfl⟩, ?_⟩
    simp only [List.mem_singleton]
    intro a ha; subst ha; omega
  rw [if_neg c4]
  push_neg at c4
  obtain ⟨e1, b1, -⟩ := toSizeT_mul_size hd c4.1 hD2
  rw [e1] at c4 ⊢
  rw [Nat.mod_eq_of_lt (by omega : 4 * 3 + (int32At m.mpData g.offset.toNat).toNat * L.szDict
      < 18446744073709551616)] at c4 ⊢
  rw [toSizeT_of_nonneg c4.1 (by unfold IsInt32 at hd; omega)]
  rw [if_neg (by omega)]
  by_cases c6 : int32At m.mpData
        (g.offset.toNat + 4 + (int32At m.mpData g.offset.toNat).toNat * L.szDict) < 0 ∨
      (4 * 3 + (int32At m.mpData g.offset.toNat).toNat * L.szDict
        + toSizeT (int32At m.mpData
            (g.offset.toNat + 4 + (int32At m.mpData g.offset.toNat).toNat * L.szDict))
          * L.szLeaf % 18446744073709551616) % 18446744073709551616 > toSizeT g.length
  · rw [if_pos c6]
    refine ⟨⟨_, rfl⟩, ?_⟩
    simp only [List.mem_cons, List.mem_singleton, List.not_mem_nil, or_false]
    rintro a (ha | ha) <;> subst ha <;> omega
  rw [if_neg c6]
  push_neg at c6
  obtain ⟨e2, b2, -⟩ := toSizeT_mul_size hl c6.1 hL2
  rw [e2] at c6 ⊢
  rw [Nat.mod_eq_of_lt (by omega : 4 * 3 + (int32At m.mpData g.offset.toNat).toNat * L.szDict
      + (int32At m.mpData (g.offset.toNat + 4
          + (int32At m.mpData g.offset.toNat).toNat * L.szDict)).toNat * L.szLeaf
      < 18446744073709551616)] at c6 ⊢
  rw [toSizeT_of_nonneg c6.1 (by unfold IsInt32 at hl; omega)]
  rw [if_neg (by omega)]
  split_ifs
  · refine ⟨⟨_, rfl⟩, ?_⟩
    simp only [List.mem_cons, List.mem_singleton, List.not_mem_nil, or_false]
    rintro a (ha | ha | ha) <;> subst ha <;> omega
  · refine ⟨⟨_, rfl⟩, ?_⟩
    simp only [List.mem_cons, List.mem_singleton, List.not_mem_nil, or_false]
    rintro a (ha | ha | ha) <;> subst ha <;> omega

theorem wordAt_store_same (data : Nat → Nat) (a : Nat) (v : Int) :
    wordAt (storeInt32 data a v) a = (v % 4294967296).toNat := by
  have h : (v % 4294967296).toNat < 4294967296 := by omega
  unfold wordAt storeInt32
  simp only [if_true, if_neg (by omega : ¬ a + 1 = a), if_neg (by omega : ¬ a + 2 = a),
    if_neg (by omega : ¬ a + 3 = a), if_neg (by omega : ¬ a + 2 = a + 1),
    if_neg (by omega : ¬ a + 3 = a + 1), if_neg (by omega : ¬ a + 3 = a + 2)]
  omega

theorem int32At_store_same (data : Nat → Nat) (a : Nat) {v : Int} (hv : IsInt32 v) :
    int32At (storeInt32 data a v) a = v := by
  unfold int32At
  rw [wordAt_store_same]
  unfold IsInt32 at hv
  split_ifs <;> omega

theorem storeInt32_other (data : Nat → Nat) (a : Nat) (v : Int) (b : Nat)
    (h : b < a ∨ a + 4 ≤ b) : storeInt32 data a v b = data b := by
  unfold storeInt32
  rw [if_neg (by omega), if_neg (by omega), if_neg (by omega), if_neg (by omega)]

theorem int32At_store_other (data : Nat → Nat) (a : Nat) (v : Int) (b : Nat)
    (h : b + 4 ≤ a ∨ a + 4 ≤ b) : int32At (storeInt32 data a v) b = int32At data b := by
  unfold int32At wordAt
  rw [storeInt32_other data a v b (by omega), storeInt32_other data a v (b + 1) (by omega),
    storeInt32_other data a v (b + 2) (by omega), storeInt32_other data a v (b + 3) (by omega)]

/-! ## Claims about `ParseStaticPropLump` -/

/-- Supporting result for C1: when the end of the lump, `offset + length`, is representable
in `int32_t`, a sub-lump whose three non-negative counts describe exactly `length` bytes is
accepted and the three counts are stored. -/
theorem ParseStaticPropLump_accepts (L : Layout) (hL : L.WF) (m : BSPMap) (g : GameLump)
    (hg : g.WF) (ptrOut : Nat) (o0 : 0 ≤ g.offset) (hfit : g.offset + g.length < 2147483648)
    (hend : g.offset + g.length ≤ m.mDataSize)
    (d0 : 0 ≤ dictCount m g) (l0 : 0 ≤ leafCount L m g) (p0 : 0 ≤ propCount L m g)
    (hsz : derivedSize L m g = g.length) :
    (ParseStaticPropLump L m g ptrOut).outcome = .returned true
      ∧ ((ParseStaticPropLump L m g ptrOut).map.mNumStaticPropDictEntries : Int) = dictCount m g
      ∧ ((ParseStaticPropLump L m g ptrOut).map.mNumStaticPropLeaves : Int) = leafCount L m g
      ∧ (ParseStaticPropLump L m g ptrOut).map.mNumStaticProps = propCount L m g := by
  have hsum : toSizeT (wrapInt32 (g.offset + g.length)) ≤ m.mDataSize := by
    have hd := int32At_isInt32 m.mpData g.offset.toNat
    have hl := int32At_isInt32 m.mpData (leafCountAddr L m g)
    have hp := int32At_isInt32 m.mpData (propCountAddr L m g)
    obtain ⟨⟨-, hD2⟩, ⟨-, hL2⟩, -, hP2⟩ := hL
    obtain ⟨-, -, k1⟩ := toSizeT_mul_size hd d0 hD2
    obtain ⟨-, -, k2⟩ := toSizeT_mul_size hl l0 hL2
    obtain ⟨-, -, k3⟩ := toSizeT_mul_size hp p0 hP2
    unfold derivedSize propCount leafCount dictCount at hsz
    unfold propCount at p0
    unfold leafCount at l0
    unfold dictCount at d0
    unfold toSizeT wrapInt32
    omega
  rw [parse_of_accept L hL m g hg ptrOut o0 hsum d0 l0 p0 hsz]
  exact ⟨rfl, Int.toNat_of_nonneg d0, Int.toNat_of_nonneg l0, rfl⟩

/-- C1 (the code at the failing input). In a file of 2^31 bytes whose static-prop lump is the
last 12 bytes, the premises of the claim hold (offset ≥ 0, offset + length ≤ dataSize, the
three counts are 0 and describe exactly 12 bytes), yet `ParseStaticPropLump` returns `false`:
`offset + length` is computed in `int32_t` and is negative when compared with the file size. -/
theorem C1_lump_ending_at_2GiB_rejected :
    (0 ≤ lastBytesLump.offset
      ∧ lastBytesLump.offset + lastBytesLump.length ≤ (BSPMap.fresh zeroData 2147483648).mDataSize
      ∧ 0 ≤ dictCount (BSPMap.fresh zeroData 2147483648) lastBytesLump
      ∧ 0 ≤ leafCount layoutV4 (BSPMap.fresh zeroData 2147483648) lastBytesLump
      ∧ 0 ≤ propCount layoutV4 (BSPMap.fresh zeroData 2147483648) lastBytesLump
      ∧ derivedSize layoutV4 (BSPMap.fresh zeroData 2147483648) lastBytesLump
          = lastBytesLump.length)
    ∧ lastBytesLump.WF
    ∧ (ParseStaticPropLump layoutV4 (BSPMap.fresh zeroData 2147483648) lastBytesLump 0).outcome
        = .returned false := by
  decide

/-- Supporting result for C2: whenever `ParseStaticPropLump` returns `true`, the stored counts
are the three counts of the file, they are non-negative, and as exact integers
`12 + d * sizeof(dict) + l * sizeof(leaf) + p * sizeof(prop)` is the declared length, with
`offset ≥ 0` and `offset + length ≤ dataSize`; and when the size the counts describe differs
from a non-negative declared length, the call returns `false`. -/
theorem ParseStaticPropLump_accepted_exact (L : Layout) (hL : L.WF) (m : BSPMap) (g : GameLump)
    (hg : g.WF) (ptrOut : Nat) :
    ((ParseStaticPropLump L m g ptrOut).outcome = .returned true →
      ((ParseStaticPropLump L m g ptrOut).map.mNumStaticPropDictEntries : Int) = dictCount m g
      ∧ ((ParseStaticPropLump L m g ptrOut).map.mNumStaticPropLeaves : Int) = leafCount L m g
      ∧ (ParseStaticPropLump L m g ptrOut).map.mNumStaticProps = propCount L m g
      ∧ 0 ≤ (ParseStaticPropLump L m g ptrOut).map.mNumStaticProps
      ∧ (12 + ((ParseStaticPropLump L m g ptrOut).map.mNumStaticPropDictEntries : Int) * L.szDict
          + ((ParseStaticPropLump L m g ptrOut).map.mNumStaticPropLeaves : Int) * L.szLeaf
          + (ParseStaticPropLump L m g ptrOut).map.mNumStaticProps * L.szProp = g.length)
      ∧ 0 ≤ g.offset ∧ g.offset + g.length ≤ m.mDataSize)
    ∧ (0 ≤ g.length → derivedSize L m g ≠ g.length →
        (ParseStaticPropLump L m g ptrOut).outcome = .returned false) := by
  constructor
  · intro h
    obtain ⟨o0, hsum, d0, l0, p0, hsz⟩ := (parse_true_iff L hL m g hg ptrOut).mp h
    rw [parse_true_map L hL m g hg ptrOut h]
    refine ⟨Int.toNat_of_nonneg d0, Int.toNat_of_nonneg l0, rfl, p0, ?_, o0, ?_⟩
    · show 12 + ((dictCount m g).toNat : Int) * L.szDict
        + ((leafCount L m g).toNat : Int) * L.szLeaf + propCount L m g * L.szProp = g.length
      rw [Int.toNat_of_nonneg d0, Int.toNat_of_nonneg l0]
      exact hsz
    have hd := int32At_isInt32 m.mpData g.offset.toNat
    have hl := int32At_isInt32 m.mpData (leafCountAddr L m g)
    have hp := int32At_isInt32 m.mpData (propCountAddr L m g)
    obtain ⟨⟨-, hD2⟩, ⟨-, hL2⟩, -, hP2⟩ := hL
    obtain ⟨-, -, k1⟩ := toSizeT_mul_size hd d0 hD2
    obtain ⟨-, -, k2⟩ := toSizeT_mul_size hl l0 hL2
    obtain ⟨-, -, k3⟩ := toSizeT_mul_size hp p0 hP2
    obtain ⟨⟨ho1, ho2⟩, hl1, hl2⟩ := hg
    unfold derivedSize propCount leafCount dictCount at hsz
    unfold propCount at p0
    unfold leafCount at l0
    unfold dictCount at d0
    unfold toSizeT wrapInt32 at hsum
    omega
  · intro hlen hne
    obtain ⟨⟨b, hb⟩, -⟩ := parse_reads_ok L hL m g hg ptrOut hlen
    cases b with
    | false => exact hb
    | true => exact absurd ((parse_true_iff L hL m g hg ptrOut).mp hb).2.2.2.2.2 hne

/-- The supporting result for C2 at a concrete input: a 324-byte sub-lump with 2 dictionary
records, no leaf record and one 56-byte prop record is accepted and
`12 + 2*128 + 0*2 + 1*56 = 324`. -/
theorem ParseStaticPropLump_accepted_exact_witness :
    (ParseStaticPropLump layoutV4 (BSPMap.fresh twoDictData 324) twoDictLump 0).outcome
        = .returned true
    ∧ (ParseStaticPropLump layoutV4 (BSPMap.fresh twoDictData 324) twoDictLump 0).map.mNumStaticProps
        = propCount layoutV4 (BSPMap.fresh twoDictData 324) twoDictLump :=
  ⟨by decide,
    ((ParseStaticPropLump_accepted_exact layoutV4 (by decide) (BSPMap.fresh twoDictData 324)
      twoDictLump (by decide) 0).1 (by decide)).2.2.1⟩

/-- C2 (the code at the failing input). In a file of 4096 bytes, for the game-lump entry with
offset 4096 and length -4, the three counts describe 12 bytes, in excess of the declared
length, yet `ParseStaticPropLump` does not return `false`: the guard `12 > length` compares
in `size_t`, where -4 is 18446744073709551612, and the call goes on to read the first count
at byte 4096, outside the file. -/
theorem C2_excess_over_negative_length_not_rejected :
    (tailLump.WF ∧ 0 ≤ tailLump.offset
      ∧ tailLump.offset + tailLump.length ≤ (BSPMap.fresh zeroData 4096).mDataSize)
    ∧ derivedSize layoutV4 (BSPMap.fresh zeroData 4096) tailLump = 12
    ∧ derivedSize layoutV4 (BSPMap.fresh zeroData 4096) tailLump ≠ tailLump.length
    ∧ toSizeT tailLump.length = 18446744073709551612
    ∧ (ParseStaticPropLump layoutV4 (BSPMap.fresh zeroData 4096) tailLump 0).reads = [4096]
    ∧ (ParseStaticPropLump layoutV4 (BSPMap.fresh zeroData 4096) tailLump 0).outcome
        ≠ .returned false := by
  decide

/-! ## Claims about `GetStaticPropInternal` -/

/-- C3. For every instance state, every index and every record pointer,
`GetStaticPropInternal` throws `out_of_range` exactly when `index < 0`, or `index` is at
least the stored prop count, or the `propType` of record `index` is at least the stored
dictionary count; otherwise it returns the record's origin, angles and skin together with
the address of the model name of dictionary entry `propType`. It throws nothing else. -/
theorem C3_GetStaticPropInternal_contract (L : Layout) (m : BSPMap) (index : Int)
    (pStaticProps : Nat) :
    ((∃ msg, GetStaticPropInternal L m index pStaticProps = .error (.out_of_range msg)) ↔
      (index < 0 ∨ index ≥ m.mNumStaticProps
        ∨ (L.propAt m.mpData (pStaticProps + index.toNat * L.szProp)).propType
            ≥ m.mNumStaticPropDictEntries))
    ∧ (¬ (index < 0 ∨ index ≥ m.mNumStaticProps
        ∨ (L.propAt m.mpData (pStaticProps + index.toNat * L.szProp)).propType
            ≥ m.mNumStaticPropDictEntries) →
      GetStaticPropInternal L m index pStaticProps = .ok
        { pos := (L.propAt m.mpData (pStaticProps + index.toNat * L.szProp)).origin
          ang := (L.propAt m.mpData (pStaticProps + index.toNat * L.szProp)).angles
          model := m.mpStaticPropDict
            + (L.propAt m.mpData (pStaticProps + index.toNat * L.szProp)).propType * L.szDict
            + L.offModelName
          skin := (L.propAt m.mpData (pStaticProps + index.toNat * L.szProp)).skin })
    ∧ ∀ msg, GetStaticPropInternal L m index pStaticProps ≠ .error (.runtime_error msg) := by
  unfold GetStaticPropInternal
  simp only []
  by_cases h1 : index < 0 ∨ index ≥ m.mNumStaticProps
  · rw [if_pos h1]
    refine ⟨⟨fun _ => ?_, fun _ => ⟨_, rfl⟩⟩, fun hn => ?_, fun msg h => ?_⟩
    · rcases h1 with h | h
      · exact Or.inl h
      · exact Or.inr (Or.inl h)
    · exact absurd (by rcases h1 with h | h; exact Or.inl h; exact Or.inr (Or.inl h)) hn
    · cases h
  · rw [if_neg h1]
    by_cases h2 : (L.propAt m.mpData (pStaticProps + index.toNat * L.szProp)).propType
        ≥ m.mNumStaticPropDictEntries
    · rw [if_pos h2]
      refine ⟨⟨fun _ => Or.inr (Or.inr h2), fun _ => ⟨_, rfl⟩⟩, fun hn => ?_, fun msg h => ?_⟩
      · exact absurd (Or.inr (Or.inr h2)) hn
      · cases h
    · rw [if_neg h2]
      refine ⟨⟨fun ⟨msg, h⟩ => ?_, fun h => ?_⟩, fun _ => rfl, fun msg h => ?_⟩
      · cases h
      · rcases h with h | h | h
        · exact absurd (Or.inl h) h1
        · exact absurd (Or.inr h) h1
        · exact absurd h h2
      · cases h

/-! ## Changing one count of an accepted sub-lump -/

/-- Facts every accepted sub-lump satisfies, in the form the count-changing results use. -/
theorem accepted_facts (L : Layout) (hL : L.WF) (m : BSPMap) (g : GameLump) (hg : g.WF)
    (ptrOut : Nat) (h : (ParseStaticPropLump L m g ptrOut).outcome = .returned true) :
    0 ≤ g.offset ∧ 12 ≤ g.length
      ∧ toSizeT (wrapInt32 (g.offset + g.length)) ≤ m.mDataSize
      ∧ (0 ≤ dictCount m g ∧ dictCount m g + 1 < 2147483648)
      ∧ (0 ≤ leafCount L m g ∧ leafCount L m g + 1 < 2147483648)
      ∧ (0 ≤ propCount L m g ∧ propCount L m g + 1 < 2147483648)
      ∧ derivedSize L m g = g.length := by
  obtain ⟨o0, hsum, d0, l0, p0, hsz⟩ := (parse_true_iff L hL m g hg ptrOut).mp h
  obtain ⟨⟨hD1, -⟩, ⟨hL1, -⟩, hP1, -⟩ := hL
  obtain ⟨-, -, hl2⟩ := hg
  have q1 : dictCount m g ≤ dictCount m g * L.szDict :=
    le_mul_of_one_le_right d0 (by exact_mod_cast hD1)
  have q2 : leafCount L m g ≤ leafCount L m g * L.szLeaf :=
    le_mul_of_one_le_right l0 (by exact_mod_cast hL1)
  have q3 : propCount L m g ≤ propCount L m g * L.szProp :=
    le_mul_of_one_le_right p0 (by exact_mod_cast hP1)
  unfold derivedSize at hsz
  refine ⟨o0, by omega, hsum, ⟨d0, by omega⟩, ⟨l0, by omega⟩, ⟨p0, by omega⟩, ?_⟩
  unfold derivedSize
  exact hsz

theorem withCount_mDataSize (m : BSPMap) (addr : Nat) (v : Int) :
    (m.withCount addr v).mDataSize = m.mDataSize := rfl

theorem withCount_mpData (m : BSPMap) (addr : Nat) (v : Int) :
    (m.withCount addr v).mpData = storeInt32 m.mpData addr v := rfl

theorem dictCount_withCount (m : BSPMap) (g : GameLump) (addr : Nat) (v : Int) :
    dictCount (m.withCount addr v) g = int32At (storeInt32 m.mpData addr v) g.offset.toNat :=
  rfl

theorem leafCount_withCount (L : Layout) (m : BSPMap) (g : GameLump) (addr : Nat) (v : Int) :
    leafCount L (m.withCount addr v) g
      = int32At (storeInt32 m.mpData addr v) (leafCountAddr L (m.withCount addr v) g) :=
  rfl

theorem propCount_withCount (L : Layout) (m : BSPMap) (g : GameLump) (addr : Nat) (v : Int) :
    propCount L (m.withCount addr v) g
      = int32At (storeInt32 m.mpData addr v) (propCountAddr L (m.withCount addr v) g) :=
  rfl

theorem leafCountAddr_congr (L : Layout) (m m' : BSPMap) (g : GameLump)
    (h : dictCount m' g = dictCount m g) : leafCountAddr L m' g = leafCountAddr L m g := by
  show g.offset.toNat + 4 + (dictCount m' g).toNat * L.szDict
    = g.offset.toNat + 4 + (dictCount m g).toNat * L.szDict
  rw [h]

theorem propCountAddr_congr (L : Layout) (m m' : BSPMap) (g : GameLump)
    (hA : leafCountAddr L m' g = leafCountAddr L m g)
    (hl : leafCount L m' g = leafCount L m g) : propCountAddr L m' g = propCountAddr L m g := by
  show leafCountAddr L m' g + 4 + (leafCount L m' g).toNat * L.szLeaf
    = leafCountAddr L m g + 4 + (leafCount L m g).toNat * L.szLeaf
  rw [hA, hl]

theorem leafCountAddr_ge (L : Layout) (m : BSPMap) (g : GameLump) :
    g.offset.toNat + 4 ≤ leafCountAddr L m g := by
  unfold leafCountAddr; omega

theorem propCountAddr_ge (L : Layout) (m : BSPMap) (g : GameLump) :
    leafCountAddr L m g + 4 ≤ propCountAddr L m g := by
  unfold propCountAddr; omega

/-- A call that returns, and is not accepted, returns `false`. -/
theorem returned_false_of_not_accept (L : Layout) (hL : L.WF) (m : BSPMap) (g : GameLump)
    (hg : g.WF) (ptrOut : Nat) (hlen : 0 ≤ g.length)
    (hn : ¬ (0 ≤ dictCount m g ∧ 0 ≤ leafCount L m g ∧ 0 ≤ propCount L m g
      ∧ derivedSize L m g = g.length)) :
    (ParseStaticPropLump L m g ptrOut).outcome = .returned false := by
  obtain ⟨⟨b, hb⟩, -⟩ := parse_reads_ok L hL m g hg ptrOut hlen
  cases b with
  | false => exact hb
  | true => exact absurd ((parse_true_iff L hL m g hg ptrOut).mp hb).2.2 hn

/-- C4 (as amended). For an accepted sub-lump, with the file otherwise unchanged and the
declared length unchanged: storing prop count + 1 makes `ParseStaticPropLump` return `false`;
storing leaf count + 1 makes it return `false` whenever `sizeof(leaf record)` is not a
multiple of `sizeof(prop record)`; storing dictionary count + 1 makes it return `false`
unless the `int32_t`s found at the shifted count positions are non-negative counts `l'`, `p'`
with `sizeof(dict) + l' * sizeof(leaf) + p' * sizeof(prop) = l * sizeof(leaf) + p * sizeof(prop)`,
and in that case it returns `true`. -/
theorem C4_incremented_count (L : Layout) (hL : L.WF) (m : BSPMap) (g : GameLump) (hg : g.WF)
    (ptrOut : Nat) (h : (ParseStaticPropLump L m g ptrOut).outcome = .returned true) :
    (ParseStaticPropLump L (m.withCount (propCountAddr L m g) (propCount L m g + 1)) g
        ptrOut).outcome = .returned false
    ∧ (¬ L.szProp ∣ L.szLeaf →
        (ParseStaticPropLump L (m.withCount (leafCountAddr L m g) (leafCount L m g + 1)) g
          ptrOut).outcome = .returned false)
    ∧ ((0 ≤ leafCount L (m.withCount g.offset.toNat (dictCount m g + 1)) g
          ∧ 0 ≤ propCount L (m.withCount g.offset.toNat (dictCount m g + 1)) g
          ∧ (L.szDict : Int)
              + leafCount L (m.withCount g.offset.toNat (dictCount m g + 1)) g * L.szLeaf
              + propCount L (m.withCount g.offset.toNat (dictCount m g + 1)) g * L.szProp
            = leafCount L m g * L.szLeaf + propCount L m g * L.szProp) →
        (ParseStaticPropLump L (m.withCount g.offset.toNat (dictCount m g + 1)) g
          ptrOut).outcome = .returned true)
    ∧ (¬ (0 ≤ leafCount L (m.withCount g.offset.toNat (dictCount m g + 1)) g
          ∧ 0 ≤ propCount L (m.withCount g.offset.toNat (dictCount m g + 1)) g
          ∧ (L.szDict : Int)
              + leafCount L (m.withCount g.offset.toNat (dictCount m g + 1)) g * L.szLeaf
              + propCount L (m.withCount g.offset.toNat (dictCount m g + 1)) g * L.szProp
            = leafCount L m g * L.szLeaf + propCount L m g * L.szProp) →
        (ParseStaticPropLump L (m.withCount g.offset.toNat (dictCount m g + 1)) g
          ptrOut).outcome = .returned false) := by
  obtain ⟨o0, hlen, hsum, ⟨d0, d1⟩, ⟨l0, l1⟩, ⟨p0, p1⟩, hsz⟩ :=
    accepted_facts L hL m g hg ptrOut h
  have hP1 : (1 : Int) ≤ L.szProp := by exact_mod_cast hL.2.2.1
  have eD' : dictCount (m.withCount g.offset.toNat (dictCount m g + 1)) g
      = dictCount m g + 1 := by
    rw [dictCount_withCount]
    exact int32At_store_same _ _ ⟨by omega, by omega⟩
  refine ⟨?_, ?_, ?_, ?_⟩
  · -- the prop count
    have hA := leafCountAddr_ge L m g
    have hB := propCountAddr_ge L m g
    have eD : dictCount (m.withCount (propCountAddr L m g) (propCount L m g + 1)) g
        = dictCount m g := by
      rw [dictCount_withCount]
      exact int32At_store_other _ _ _ _ (by omega)
    have eLA := leafCountAddr_congr L m _ g eD
    have eL : leafCount L (m.withCount (propCountAddr L m g) (propCount L m g + 1)) g
        = leafCount L m g := by
      rw [leafCount_withCount, eLA]
      exact int32At_store_other _ _ _ _ (by omega)
    have ePA := propCountAddr_congr L m _ g eLA eL
    have eP : propCount L (m.withCount (propCountAddr L m g) (propCount L m g + 1)) g
        = propCount L m g + 1 := by
      rw [propCount_withCount, ePA]
      exact int32At_store_same _ _ ⟨by omega, by omega⟩
    apply returned_false_of_not_accept L hL _ g hg ptrOut (by omega)
    rintro ⟨-, -, -, hs⟩
    unfold derivedSize at hs hsz
    rw [eD, eL, eP, add_mul] at hs
    omega
  · -- the leaf count
    intro hdvd
    have hA := leafCountAddr_ge L m g
    have eD : dictCount (m.withCount (leafCountAddr L m g) (leafCount L m g + 1)) g
        = dictCount m g := by
      rw [dictCount_withCount]
      exact int32At_store_other _ _ _ _ (by omega)
    have eLA := leafCountAddr_congr L m _ g eD
    have eL : leafCount L (m.withCount (leafCountAddr L m g) (leafCount L m g + 1)) g
        = leafCount L m g + 1 := by
      rw [leafCount_withCount, eLA]
      exact int32At_store_same _ _ ⟨by omega, by omega⟩
    apply returned_false_of_not_accept L hL _ g hg ptrOut (by omega)
    rintro ⟨-, -, -, hs⟩
    apply hdvd
    unfold derivedSize at hs hsz
    rw [eD, eL, add_mul] at hs
    have key : (L.szLeaf : Int) = (propCount L m g
        - propCount L (m.withCount (leafCountAddr L m g) (leafCount L m g + 1)) g)
          * L.szProp := by
      rw [sub_mul]; omega
    have : (L.szProp : Int) ∣ (L.szLeaf : Int) := Dvd.intro_left _ key.symm
    exact Int.natCast_dvd_natCast.mp this
  · -- the dictionary count, accepted again
    rintro ⟨hl', hp', heq⟩
    apply (parse_true_iff L hL _ g hg ptrOut).mpr
    refine ⟨o0, hsum, by rw [eD']; omega, hl', hp', ?_⟩
    unfold derivedSize at hsz ⊢
    rw [eD', add_mul]
    omega
  · -- the dictionary count, refused
    intro hcond
    apply returned_false_of_not_accept L hL _ g hg ptrOut (by omega)
    rintro ⟨-, hl', hp', hs⟩
    apply hcond
    refine ⟨hl', hp', ?_⟩
    unfold derivedSize at hs hsz
    rw [eD', add_mul] at hs
    omega

/-- C4 (counterexample). A 144-byte sub-lump with no dictionary record, 66 leaf records and
no prop record is accepted; with the dictionary count incremented to 1 and nothing else
changed it is accepted again: the leaf count is now read from leaf record 62 (value 2) and
the prop count from its old place, and `12 + 128 + 2*2 + 0*56 = 144`. -/
theorem C4_dict_increment_still_accepted :
    (ParseStaticPropLump layoutV4 (BSPMap.fresh shiftData 144) shiftLump 0).outcome
        = .returned true
    ∧ dictCount (BSPMap.fresh shiftData 144) shiftLump = 0
    ∧ (ParseStaticPropLump layoutV4
          ((BSPMap.fresh shiftData 144).withCount shiftLump.offset.toNat
            (dictCount (BSPMap.fresh shiftData 144) shiftLump + 1)) shiftLump 0).outcome
        = .returned true := by
  decide

/-- C4 at a concrete input: the accepted 324-byte sub-lump is rejected once its prop count is
incremented. -/
theorem C4_incremented_count_witness :
    (ParseStaticPropLump layoutV4 (BSPMap.fresh twoDictData 324) twoDictLump 0).outcome
        = .returned true
    ∧ (ParseStaticPropLump layoutV4
          ((BSPMap.fresh twoDictData 324).withCount
            (propCountAddr layoutV4 (BSPMap.fresh twoDictData 324) twoDictLump)
            (propCount layoutV4 (BSPMap.fresh twoDictData 324) twoDictLump + 1))
          twoDictLump 0).outcome = .returned false :=
  ⟨by decide,
    (C4_incremented_count layoutV4 (by decide) (BSPMap.fresh twoDictData 324) twoDictLump
      (by decide) 0 (by decide)).1⟩

/-! ## The accessor on a decoded sub-lump -/

/-- C5 (counterexample). A 68-byte sub-lump with no dictionary record and one prop record is
accepted with prop count `N = 1`, and `GetStaticPropInternal` at `N - 1 = 0` throws
`out_of_range`: the record's `propType` (0) is not below the dictionary count (0). -/
theorem C5_last_prop_can_throw :
    (ParseStaticPropLump layoutV4 (BSPMap.fresh onePropData 68) onePropLump 0).outcome
        = .returned true
    ∧ (ParseStaticPropLump layoutV4 (BSPMap.fresh onePropData 68) onePropLump 0).map.mNumStaticProps
        = 1
    ∧ GetStaticPropInternal layoutV4
        (ParseStaticPropLump layoutV4 (BSPMap.fresh onePropData 68) onePropLump 0).map (1 - 1)
        (ParseStaticPropLump layoutV4 (BSPMap.fresh onePropData 68) onePropLump 0).ptrOut
      = .error (.out_of_range "Static prop dictionary index out of bounds") :=
  ⟨by decide, by decide, rfl⟩

/-- C5 (as amended). After an accepted `ParseStaticPropLump` with prop count `N ≥ 1`:
`GetStaticPropInternal` at index `N` throws `out_of_range`; at index `N - 1` it succeeds
exactly when the `propType` of record `N - 1` is below the dictionary count, and then returns
that record's origin, angles and skin with `model` the name of dictionary entry `propType`
(at `offset + 4 + propType * sizeof(dict)`); otherwise it throws `out_of_range`. -/
theorem C5_last_prop (L : Layout) (hL : L.WF) (m : BSPMap) (g : GameLump) (hg : g.WF)
    (ptrOut : Nat) (h : (ParseStaticPropLump L m g ptrOut).outcome = .returned true)
    (hN : 1 ≤ (ParseStaticPropLump L m g ptrOut).map.mNumStaticProps) :
    (∃ msg, GetStaticPropInternal L (ParseStaticPropLump L m g ptrOut).map
        (ParseStaticPropLump L m g ptrOut).map.mNumStaticProps
        (ParseStaticPropLump L m g ptrOut).ptrOut = .error (.out_of_range msg))
    ∧ ((L.propAt m.mpData (propCountAddr L m g + 4
          + (propCount L m g - 1).toNat * L.szProp)).propType < (dictCount m g).toNat →
        GetStaticPropInternal L (ParseStaticPropLump L m g ptrOut).map
          ((ParseStaticPropLump L m g ptrOut).map.mNumStaticProps - 1)
          (ParseStaticPropLump L m g ptrOut).ptrOut
        = .ok
          { pos := (L.propAt m.mpData (propCountAddr L m g + 4
              + (propCount L m g - 1).toNat * L.szProp)).origin
            ang := (L.propAt m.mpData (propCountAddr L m g + 4
              + (propCount L m g - 1).toNat * L.szProp)).angles
            model := g.offset.toNat + 4
              + (L.propAt m.mpData (propCountAddr L m g + 4
                  + (propCount L m g - 1).toNat * L.szProp)).propType * L.szDict
              + L.offModelName
            skin := (L.propAt m.mpData (propCountAddr L m g + 4
              + (propCount L m g - 1).toNat * L.szProp)).skin })
    ∧ ((dictCount m g).toNat ≤ (L.propAt m.mpData (propCountAddr L m g + 4
          + (propCount L m g - 1).toNat * L.szProp)).propType →
        ∃ msg, GetStaticPropInternal L (ParseStaticPropLump L m g ptrOut).map
          ((ParseStaticPropLump L m g ptrOut).map.mNumStaticProps - 1)
          (ParseStaticPropLump L m g ptrOut).ptrOut = .error (.out_of_range msg)) := by
  rw [parse_true_map L hL m g hg ptrOut h] at hN ⊢
  simp only [] at hN ⊢
  unfold GetStaticPropInternal
  simp only []
  refine ⟨?_, ?_, ?_⟩
  · rw [if_pos (Or.inr (le_refl _))]
    exact ⟨_, rfl⟩
  · intro hlt
    rw [if_neg (by omega), if_neg (by omega)]
  · intro hge
    rw [if_neg (by omega), if_pos (by omega)]
    exact ⟨_, rfl⟩

/-- C5 at a concrete input: the 324-byte sub-lump holds two dictionary records and one prop
record of type 1 and skin 7; the accessor at index 0 returns the model name of dictionary
entry 1, at byte 4 + 128. -/
theorem C5_last_prop_witness :
    ((ParseStaticPropLump layoutV4 (BSPMap.fresh twoDictData 324) twoDictLump 0).outcome
        = .returned true
      ∧ (1 : Int) ≤ (ParseStaticPropLump layoutV4 (BSPMap.fresh twoDictData 324)
          twoDictLump 0).map.mNumStaticProps)
    ∧ GetStaticPropInternal layoutV4
        (ParseStaticPropLump layoutV4 (BSPMap.fresh twoDictData 324) twoDictLump 0).map
        ((ParseStaticPropLump layoutV4 (BSPMap.fresh twoDictData 324)
          twoDictLump 0).map.mNumStaticProps - 1)
        (ParseStaticPropLump layoutV4 (BSPMap.fresh twoDictData 324) twoDictLump 0).ptrOut
      = .ok { pos := ⟨0, 0, 0⟩, ang := ⟨0, 0, 0⟩, model := 132, skin := 7 } :=
  ⟨⟨by decide, by decide⟩,
    (C5_last_prop layoutV4 (by decide) (BSPMap.fresh twoDictData 324) twoDictLump (by decide) 0
      (by decide) (by decide)).2.1 (by decide)⟩

/-! ## Reads of the decoder -/

/-- C6 (the code at the failing input). In a file of 2000 bytes, the game-lump entry with
offset 3000 and length -1500 passes both guards (`offset ≥ 0`, `offset + length = 1500` is at
most the file size, and `12 > length` is false once `length` is converted to `size_t`), and
the first count is then read at byte 3000, outside the file. -/
theorem C6_negative_length_reads_outside_file :
    negLump.WF ∧ 0 ≤ negLump.offset
    ∧ negLump.offset + negLump.length ≤ (BSPMap.fresh zeroData 2000).mDataSize
    ∧ (ParseStaticPropLump layoutV4 (BSPMap.fresh zeroData 2000) negLump 0).reads = [3000]
    ∧ (ParseStaticPropLump layoutV4 (BSPMap.fresh zeroData 2000) negLump 0).outcome
        = .invalidRead 3000 := by
  decide

/-! ## `ThrowSafeError` -/

/-- C7. For every message and every pointer variable, `ThrowSafeError` does not return
normally: it ends by throwing `runtime_error` with exactly the given message, after `free`
has been applied to the pointer and the variable has been set to null. -/
theorem C7_ThrowSafeError_throws (msg : String) (ptr : Nat) (heap : List Nat) :
    (ThrowSafeError msg ptr heap).2 = .error (.runtime_error msg)
    ∧ (ThrowSafeError msg ptr heap).2 ≠ .ok ()
    ∧ (ThrowSafeError msg ptr heap).1.1 = 0
    ∧ (ThrowSafeError msg ptr heap).1.2 = free heap ptr
    ∧ (ptr ≠ 0 → ptr ∉ (ThrowSafeError msg ptr heap).1.2) := by
  refine ⟨rfl, ?_, rfl, rfl, fun hp hmem => ?_⟩
  · intro h
    cases h
  have : ptr ∈ free heap ptr := hmem
  unfold free at this
  rw [if_neg hp] at this
  simpa using (List.mem_filter.mp this).2

/-! ## The triangulator: counting -/

theorem length_flatMap_const {α β : Type} (f : α → List β) (c : Nat) (l : List α)
    (h : ∀ x ∈ l, (f x).length = c) : (l.flatMap f).length = l.length * c := by
  induction l with
  | nil => simp
  | cons a t ih =>
    rw [List.flatMap_cons, List.length_append, h a (List.mem_cons_self a t),
      ih (fun x hx => h x (List.mem_cons_of_mem a hx)), List.length_cons]
    ring

theorem length_gridTris {α : Type} (pt : Nat → Nat → α) (g : Nat) :
    (gridTris pt g).length = (g - 1) ^ 2 * 2 := by
  unfold gridTris
  rw [length_flatMap_const _ ((g - 1) * 2), List.length_range]
  · ring
  · intro row _
    rw [length_flatMap_const _ 2, List.length_range]
    intro col _
    rfl

theorem length_fanTris {α : Type} (l : List α) : (fanTris l).length = l.length - 2 := by
  cases l with
  | nil => rfl
  | cons p rest =>
    unfold fanTris
    rw [List.length_map, List.length_zip, List.length_tail, List.length_cons]
    omega

theorem length_ringVerts (m : BSPMap) (first : Int) (n : Nat) (r : List Vector)
    (h : ringVerts m first n = some r) : r.length = n := by
  induction n generalizing r with
  | zero =>
    unfold ringVerts at h
    cases h
    rfl
  | succ k ih =>
    unfold ringVerts at h
    split at h
    · rename_i r0 ab hr hab
      cases h
      rw [List.length_append, ih r0 hr]
      rfl
    · cases h

theorem length_soupArray {α β : Type} (attr : α → β) (tris : List (α × α × α)) :
    (soupArray attr tris).length = 3 * tris.length := by
  unfold soupArray
  rw [length_flatMap_const (fun t => [attr t.1, attr t.2.1, attr t.2.2]) 3 tris
    (fun _ _ => rfl)]
  ring

/-- Pass 2 emits for each face exactly the number of triangles pass 1 counted for it. -/
theorem length_faceRawTris (F : FloatOps) (m : BSPMap) (f : Face) (k : Nat)
    (ts : List (RawVertex × RawVertex × RawVertex)) (hc : faceTriCount m f = .ok k)
    (hr : faceRawTris F m f = .ok ts) : ts.length = k := by
  unfold faceTriCount at hc
  unfold faceRawTris at hr
  by_cases hn : IsFaceNodraw m f = true
  · rw [if_pos hn] at hc hr
    cases hc; cases hr; rfl
  · rw [if_neg hn] at hc hr
    cases hring : ringVerts m f.firstEdge f.edgeCount.toNat with
    | none => rw [hring] at hr; cases hr
    | some ring =>
      rw [hring] at hr
      have hlen := length_ringVerts m f.firstEdge _ ring hring
      cases hd : f.disp with
      | none =>
        rw [hd] at hc hr
        simp only [] at hc hr
        cases hc; cases hr
        rw [length_fanTris, List.length_map, hlen]
        omega
      | some d =>
        rw [hd] at hc hr
        simp only [] at hc hr
        split_ifs at hc hr with h1 h2 h3
        cases hc
        split at hr
        · cases hr
          rw [length_gridTris]
        · cases hr

theorem length_faceTris (F : FloatOps) (m : BSPMap) (f : Face) (k : Nat)
    (ts : List (SoupVertex × SoupVertex × SoupVertex)) (hc : faceTriCount m f = .ok k)
    (hr : faceTris F m f = .ok ts) : ts.length = k := by
  unfold faceTris at hr
  split at hr
  · cases hr
  · rename_i raw hraw
    cases hr
    rw [List.length_map]
    exact length_faceRawTris F m f k raw hc hraw

theorem length_fillTris (F : FloatOps) (m : BSPMap) (fs : List Face) (n : Nat)
    (tris : List (SoupVertex × SoupVertex × SoupVertex)) (hc : countTris m fs = .ok n)
    (hr : fillTris F m fs = .ok tris) : tris.length = n := by
  induction fs generalizing n tris with
  | nil =>
    unfold countTris at hc
    unfold fillTris at hr
    cases hc; cases hr; rfl
  | cons f rest ih =>
    unfold countTris at hc
    unfold fillTris at hr
    split at hc
    · cases hc
    · rename_i k hk
      split at hc
      · cases hc
      · rename_i n0 hn0
        cases hc
        split at hr
        · cases hr
        · rename_i ts hts
          split at hr
          · cases hr
          · rename_i tr htr
            cases hr
            rw [List.length_append, length_faceTris F m f k ts hk hts, ih n0 tr hn0 htr]

/-- What pass 1 counts for a face it accepts: nothing for a no-draw face, the contract's
contribution otherwise; an accepted drawn displacement face references exactly 4 edges. -/
theorem faceTriCount_ok (m : BSPMap) (f : Face) (k : Nat) (h : faceTriCount m f = .ok k) :
    k = (if f.noDraw then 0 else triContribution f)
      ∧ (f.noDraw = false → f.disp.isSome → f.edgeCount = 4) := by
  unfold faceTriCount IsFaceNodraw at h
  unfold triContribution
  cases hn : f.noDraw with
  | true =>
    rw [hn] at h
    simp only [if_true] at h
    cases h
    exact ⟨by simp, fun hx => by cases hx⟩
  | false =>
    rw [hn] at h
    simp only [Bool.false_eq_true, if_false] at h ⊢
    cases hd : f.disp with
    | none =>
      rw [hd] at h
      simp only [] at h
      cases h
      exact ⟨rfl, fun _ hx => by cases hx⟩
    | some d =>
      rw [hd] at h
      simp only [] at h
      split_ifs at h with h1 h2
      cases h
      refine ⟨?_, fun _ _ => not_not.mp h1⟩
      simp

theorem countTris_ok (m : BSPMap) (fs : List Face) (n : Nat) (h : countTris m fs = .ok n) :
    n = expectedTriCount fs
      ∧ ∀ f ∈ fs, f.noDraw = false → f.disp.isSome → f.edgeCount = 4 := by
  induction fs generalizing n with
  | nil =>
    unfold countTris at h
    cases h
    exact ⟨rfl, fun f hf => by cases hf⟩
  | cons f rest ih =>
    unfold countTris at h
    split at h
    · cases h
    · rename_i k hk
      split at h
      · cases h
      · rename_i n0 hn0
        cases h
        obtain ⟨e1, q1⟩ := faceTriCount_ok m f k hk
        obtain ⟨e2, q2⟩ := ih n0 hn0
        refine ⟨?_, ?_⟩
        · unfold expectedTriCount at e2 ⊢
          rw [e1, e2]
          cases hn : f.noDraw <;> simp [List.filter_cons, hn]
        · intro x hx
          rcases List.mem_cons.mp hx with hx | hx
          · subst hx; exact q1
          · exact q2 x hx

/-- How a successful `Triangulate` is put together. -/
theorem Triangulate_ok (F : FloatOps) (m m' : BSPMap) (h : Triangulate F m = .ok m') :
    ∃ n tris, countTris m m.mpFaces = .ok n ∧ fillTris F m m.mpFaces = .ok tris
      ∧ m' = { m with
        mNumTris := n
        mpPositions := soupArray SoupVertex.pos tris
        mpNormals := soupArray SoupVertex.normal tris
        mpTangents := soupArray SoupVertex.tangent tris
        mpBinormals := soupArray SoupVertex.binormal tris
        mpUVs := (soupArray SoupVertex.uv tris).flatMap (fun p => [p.1, p.2])
        mpAlphas := soupArray SoupVertex.alpha tris
        mpTexIndices := soupArray SoupVertex.texIndex tris } := by
  unfold Triangulate at h
  split at h
  · cases h
  · rename_i n hn
    split at h
    · cases h
    · rename_i tris ht
      cases h
      exact ⟨n, tris, hn, ht, rfl⟩

/-- C8. The triangle count of a successful `Triangulate` is the sum, over the faces not
flagged no-draw, of `(2^p)^2 * 2` for a displacement face of power `p` and of
`max(0, edgeCount - 2)` for a flat face; a drawn displacement face that does not reference
exactly 4 edges makes the whole triangulation fail; one flat quad gives 2 triangles and one
displacement face of power 2 gives 32. -/
theorem C8_triangle_count (F : FloatOps) (m : BSPMap) :
    (∀ m', Triangulate F m = .ok m' → GetNumTris m' = expectedTriCount m.mpFaces)
    ∧ ((∃ f ∈ m.mpFaces, f.noDraw = false ∧ f.disp.isSome ∧ f.edgeCount ≠ 4) →
        ∃ e, Triangulate F m = .error e)
    ∧ (∃ q, Triangulate F (oneFaceMap quadFace) = .ok q ∧ GetNumTris q = 2)
    ∧ (∃ q, Triangulate F (oneFaceMap dispFace) = .ok q ∧ GetNumTris q = 32) := by
  refine ⟨?_, ?_, ⟨_, rfl, rfl⟩, ⟨_, rfl, rfl⟩⟩
  · intro m' h
    obtain ⟨n, tris, hn, -, rfl⟩ := Triangulate_ok F m m' h
    exact (countTris_ok m m.mpFaces n hn).1
  · rintro ⟨f, hf, hdraw, hdisp, hne⟩
    cases hT : Triangulate F m with
    | error e => exact ⟨e, rfl⟩
    | ok m' =>
      obtain ⟨n, tris, hn, -, -⟩ := Triangulate_ok F m m' hT
      exact absurd ((countTris_ok m m.mpFaces n hn).2 f hf hdraw hdisp) hne

/-- C8 at a concrete input: the level made of one flat quad triangulates, and its count is
the expected 2. -/
theorem C8_triangle_count_witness :
    expectedTriCount (oneFaceMap quadFace).mpFaces = 2
    ∧ ∃ q, Triangulate plainOps (oneFaceMap quadFace) = .ok q
        ∧ GetNumTris q = expectedTriCount (oneFaceMap quadFace).mpFaces :=
  ⟨by decide, _, rfl, (C8_triangle_count plainOps (oneFaceMap quadFace)).1 _ rfl⟩

/-! ## The triangulator: the parallel arrays -/

theorem construct_ok (F : FloatOps) (lumps : BSPMap) (clockwise : Bool) (m : BSPMap)
    (h : construct F lumps clockwise = .ok m) :
    ∃ n tris, countTris { lumps with mClockwise := clockwise } lumps.mpFaces = .ok n
      ∧ fillTris F { lumps with mClockwise := clockwise } lumps.mpFaces = .ok tris
      ∧ m.mNumTris = n
      ∧ m.mpPositions = soupArray SoupVertex.pos tris
      ∧ m.mpNormals = soupArray SoupVertex.normal tris
      ∧ m.mpTangents = soupArray SoupVertex.tangent tris
      ∧ m.mpBinormals = soupArray SoupVertex.binormal tris
      ∧ m.mpUVs = (soupArray SoupVertex.uv tris).flatMap (fun p => [p.1, p.2])
      ∧ m.mpAlphas = soupArray SoupVertex.alpha tris
      ∧ m.mpTexIndices = soupArray SoupVertex.texIndex tris
      ∧ m.mIsValid = true := by
  unfold construct at h
  split at h
  · cases h
  · rename_i m0 hm0
    cases h
    obtain ⟨n, tris, hn, ht, rfl⟩ := Triangulate_ok F _ m0 hm0
    exact ⟨n, tris, hn, ht, rfl, rfl, rfl, rfl, rfl, rfl, rfl, rfl, rfl⟩

/-- C9. For every successfully constructed instance the position, normal, tangent, binormal,
alpha and texture-index arrays all have length exactly `3 * GetNumTris()`, and
`GetNumVertices() = 3 * GetNumTris()` (the UV array has two entries per vertex). -/
theorem C9_soup_lengths (F : FloatOps) (lumps : BSPMap) (clockwise : Bool) (m : BSPMap)
    (h : construct F lumps clockwise = .ok m) :
    m.mpPositions.length = 3 * GetNumTris m
    ∧ m.mpNormals.length = 3 * GetNumTris m
    ∧ m.mpTangents.length = 3 * GetNumTris m
    ∧ m.mpBinormals.length = 3 * GetNumTris m
    ∧ m.mpAlphas.length = 3 * GetNumTris m
    ∧ m.mpTexIndices.length = 3 * GetNumTris m
    ∧ GetNumVertices m = 3 * GetNumTris m
    ∧ m.mpUVs.length = 2 * GetNumVertices m := by
  obtain ⟨n, tris, hn, ht, e0, e1, e2, e3, e4, e5, e6, e7, -⟩ :=
    construct_ok F lumps clockwise m h
  have hlen : tris.length = n := length_fillTris F _ lumps.mpFaces n tris hn ht
  unfold GetNumVertices GetNumTris
  rw [e0, e1, e2, e3, e4, e5, e6, e7,
    length_flatMap_const (fun p : Nat × Nat => [p.1, p.2]) 2 _ (fun _ _ => rfl)]
  rw [length_soupArray, length_soupArray, length_soupArray, length_soupArray,
    length_soupArray, length_soupArray, length_soupArray, hlen]
  exact ⟨rfl, rfl, rfl, rfl, rfl, rfl, by ring, by ring⟩

/-- C9 at a concrete input: the level made of one displacement face of power 2 is
constructed, and its 32 triangles give position and alpha arrays of 96 entries. -/
theorem C9_soup_lengths_witness :
    ∃ q, construct plainOps (oneFaceMap dispFace) true = .ok q
      ∧ GetNumTris q = 32 ∧ q.mpPositions.length = 3 * GetNumTris q
      ∧ q.mpAlphas.length = 3 * GetNumTris q :=
  ⟨_, rfl, rfl, (C9_soup_lengths plainOps (oneFaceMap dispFace) true _ rfl).1,
    (C9_soup_lengths plainOps (oneFaceMap dispFace) true _ rfl).2.2.2.2.1⟩

/-! ## The triangulator: the winding flag -/

theorem ringVerts_clockwise (m : BSPMap) (c : Bool) (first : Int) (n : Nat) :
    ringVerts { m with mClockwise := c } first n = ringVerts m first n := by
  induction n with
  | zero => rfl
  | succ k ih =>
    unfold ringVerts
    rw [ih]
    rfl

theorem faceRawTris_clockwise (F : FloatOps) (m : BSPMap) (c : Bool) (f : Face) :
    faceRawTris F { m with mClockwise := c } f = faceRawTris F m f := by
  unfold faceRawTris
  rw [ringVerts_clockwise m c]
  rfl

theorem countTris_clockwise (m : BSPMap) (c : Bool) (fs : List Face) :
    countTris { m with mClockwise := c } fs = countTris m fs := by
  induction fs with
  | nil => rfl
  | cons f rest ih =>
    unfold countTris
    rw [ih]
    rfl

/-- Toggling the flag on one face: the same failure, or the same triangles with the last two
vertices exchanged. -/
theorem faceTris_toggle {β : Type} (attr : SoupVertex → β) (F : FloatOps)
    (hattr : ∀ f v, attr (soupVertex F f false v) = attr (soupVertex F f true v))
    (m : BSPMap) (f : Face) :
    (∀ e, faceTris F { m with mClockwise := true } f = .error e →
      faceTris F { m with mClockwise := false } f = .error e)
    ∧ (∀ ta, faceTris F { m with mClockwise := true } f = .ok ta →
      ∃ tb, faceTris F { m with mClockwise := false } f = .ok tb
        ∧ List.Forall₂ (Swap23 attr) ta tb) := by
  unfold faceTris
  rw [faceRawTris_clockwise F m true f, faceRawTris_clockwise F m false f]
  cases faceRawTris F m f with
  | error e0 =>
    dsimp only
    exact ⟨fun e h => h, fun ta h => by cases h⟩
  | ok ts =>
    dsimp only
    refine ⟨fun e h => (by cases h), fun ta h => ?_⟩
    cases h
    refine ⟨_, rfl, ?_⟩
    rw [List.forall₂_map_left_iff, List.forall₂_map_right_iff, List.forall₂_same]
    intro t _
    exact ⟨hattr f t.1, hattr f t.2.2, hattr f t.2.1⟩

theorem fillTris_toggle {β : Type} (attr : SoupVertex → β) (F : FloatOps)
    (hattr : ∀ f v, attr (soupVertex F f false v) = attr (soupVertex F f true v))
    (m : BSPMap) (fs : List Face) :
    (∀ e, fillTris F { m with mClockwise := true } fs = .error e →
      fillTris F { m with mClockwise := false } fs = .error e)
    ∧ (∀ ta, fillTris F { m with mClockwise := true } fs = .ok ta →
      ∃ tb, fillTris F { m with mClockwise := false } fs = .ok tb
        ∧ List.Forall₂ (Swap23 attr) ta tb) := by
  induction fs with
  | nil =>
    refine ⟨fun e h => (by cases h), fun ta h => ?_⟩
    unfold fillTris at h
    cases h
    exact ⟨[], rfl, List.Forall₂.nil⟩
  | cons f rest ih =>
    obtain ⟨fe, fo⟩ := faceTris_toggle attr F hattr m f
    obtain ⟨re, ro⟩ := ih
    unfold fillTris
    cases h1 : faceTris F { m with mClockwise := true } f with
    | error e1 =>
      rw [fe e1 h1]
      dsimp only
      exact ⟨fun e h => h, fun ta h => by cases h⟩
    | ok t1 =>
      obtain ⟨t2, h2, r12⟩ := fo t1 h1
      rw [h2]
      cases h3 : fillTris F { m with mClockwise := true } rest with
      | error e3 =>
        rw [re e3 h3]
        dsimp only
        exact ⟨fun e h => h, fun ta h => by cases h⟩
      | ok t3 =>
        obtain ⟨t4, h4, r34⟩ := ro t3 h3
        rw [h4]
        dsimp only
        refine ⟨fun e h => (by cases h), fun ta h => ?_⟩
        cases h
        exact ⟨_, rfl, List.rel_append r12 r34⟩

/-- Reading the flattened arrays of two triangle lists related by `Swap23`. -/
theorem swapped_of_forall₂ {β : Type} (attr : SoupVertex → β)
    (ta tb : List (SoupVertex × SoupVertex × SoupVertex))
    (h : List.Forall₂ (Swap23 attr) ta tb) :
    SwappedLastTwo (soupArray attr ta) (soupArray attr tb) ta.length := by
  induction h with
  | nil => intro k hk; exact absurd hk (Nat.not_lt_zero k)
  | @cons a b la lb hab _ ih =>
    intro k hk
    unfold soupArray at ih ⊢
    rw [List.flatMap_cons, List.flatMap_cons]
    simp only [List.cons_append, List.nil_append]
    cases k with
    | zero =>
      refine ⟨attr a.1, attr a.2.1, attr a.2.2, ⟨?_, ?_, ?_⟩, ?_, ?_, ?_⟩
      · simp
      · simp
      · simp
      · simp [hab.1]
      · simp [hab.2.1]
      · simp [hab.2.2]
    | succ j =>
      obtain ⟨v0, v1, v2, hx, hy⟩ := ih j (by simpa using hk)
      refine ⟨v0, v1, v2, ?_, ?_⟩
      · rw [show 3 * (j + 1) = 3 * j + 3 from by ring,
          show 3 * j + 3 + 1 = 3 * j + 1 + 3 from by ring,
          show 3 * j + 3 + 2 = 3 * j + 2 + 3 from by ring]
        simp only [List.getElem?_cons_succ]
        exact hx
      · rw [show 3 * (j + 1) = 3 * j + 3 from by ring,
          show 3 * j + 3 + 1 = 3 * j + 1 + 3 from by ring,
          show 3 * j + 3 + 2 = 3 * j + 2 + 3 from by ring]
        simp only [List.getElem?_cons_succ]
        exact hy

/-- The construction with the flag `c`, given what the two passes produce. -/
theorem construct_of_passes (F : FloatOps) (lumps : BSPMap) (c : Bool) (n : Nat)
    (tris : List (SoupVertex × SoupVertex × SoupVertex))
    (hn : countTris { lumps with mClockwise := c } lumps.mpFaces = .ok n)
    (ht : fillTris F { lumps with mClockwise := c } lumps.mpFaces = .ok tris) :
    ∃ b, construct F lumps c = .ok b ∧ b.mNumTris = n
      ∧ b.mpPositions = soupArray SoupVertex.pos tris
      ∧ b.mpNormals = soupArray SoupVertex.normal tris
      ∧ b.mpTangents = soupArray SoupVertex.tangent tris
      ∧ b.mpAlphas = soupArray SoupVertex.alpha tris
      ∧ b.mpTexIndices = soupArray SoupVertex.texIndex tris := by
  have hT : Triangulate F { lumps with mClockwise := c } = .ok
      { { lumps with mClockwise := c } with
        mNumTris := n
        mpPositions := soupArray SoupVertex.pos tris
        mpNormals := soupArray SoupVertex.normal tris
        mpTangents := soupArray SoupVertex.tangent tris
        mpBinormals := soupArray SoupVertex.binormal tris
        mpUVs := (soupArray SoupVertex.uv tris).flatMap (fun p => [p.1, p.2])
        mpAlphas := soupArray SoupVertex.alpha tris
        mpTexIndices := soupArray SoupVertex.texIndex tris } := by
    unfold Triangulate
    dsimp only
    rw [hn, ht]
  unfold construct
  rw [hT]
  exact ⟨_, rfl, rfl, rfl, rfl, rfl, rfl, rfl⟩

/-- A failed construction fails with the flag toggled, with the same error. -/
theorem construct_error_toggle (F : FloatOps) (lumps : BSPMap) (e : ParseError)
    (h : construct F lumps true = .error e) : construct F lumps false = .error e := by
  unfold construct Triangulate at h ⊢
  dsimp only at h ⊢
  rw [countTris_clockwise lumps true] at h
  rw [countTris_clockwise lumps false]
  cases hc : countTris lumps lumps.mpFaces with
  | error e0 =>
    rw [hc] at h
    exact h
  | ok n =>
    rw [hc] at h
    dsimp only at h ⊢
    cases hf : fillTris F { lumps with mClockwise := true } lumps.mpFaces with
    | error e1 =>
      rw [hf] at h
      rw [(fillTris_toggle SoupVertex.pos F (fun _ _ => rfl) lumps lumps.mpFaces).1 e1 hf]
      exact h
    | ok ta =>
      rw [hf] at h
      cases h

/-- C10. Constructing with `clockwise = false` instead of `clockwise = true` on the same
input yields the same triangle count and, for every triangle, the same first vertex with the
second and third vertices exchanged (in the position array, and likewise in the normal,
tangent, alpha and texture-index arrays); a failing construction fails either way. -/
theorem C10_winding_toggle (F : FloatOps) (lumps : BSPMap) :
    (∀ a, construct F lumps true = .ok a →
      ∃ b, construct F lumps false = .ok b
        ∧ GetNumTris b = GetNumTris a
        ∧ SwappedLastTwo a.mpPositions b.mpPositions (GetNumTris a)
        ∧ SwappedLastTwo a.mpNormals b.mpNormals (GetNumTris a)
        ∧ SwappedLastTwo a.mpTangents b.mpTangents (GetNumTris a)
        ∧ SwappedLastTwo a.mpAlphas b.mpAlphas (GetNumTris a)
        ∧ SwappedLastTwo a.mpTexIndices b.mpTexIndices (GetNumTris a))
    ∧ (∀ e, construct F lumps true = .error e → construct F lumps false = .error e) := by
  refine ⟨fun a ha => ?_, construct_error_toggle F lumps⟩
  obtain ⟨n, ta, hn, hta, e0, e1, e2, e3, -, -, e6, e7, -⟩ := construct_ok F lumps true a ha
  have hlen : ta.length = n := length_fillTris F _ lumps.mpFaces n ta hn hta
  obtain ⟨tb, htb, r1⟩ :=
    (fillTris_toggle SoupVertex.pos F (fun _ _ => rfl) lumps lumps.mpFaces).2 ta hta
  have r2 : List.Forall₂ (Swap23 SoupVertex.normal) ta tb := by
    obtain ⟨tb', htb', r⟩ :=
      (fillTris_toggle SoupVertex.normal F (fun _ _ => rfl) lumps lumps.mpFaces).2 ta hta
    rw [htb] at htb'
    cases htb'
    exact r
  have r3 : List.Forall₂ (Swap23 SoupVertex.tangent) ta tb := by
    obtain ⟨tb', htb', r⟩ :=
      (fillTris_toggle SoupVertex.tangent F (fun _ _ => rfl) lumps lumps.mpFaces).2 ta hta
    rw [htb] at htb'
    cases htb'
    exact r
  have r4 : List.Forall₂ (Swap23 SoupVertex.alpha) ta tb := by
    obtain ⟨tb', htb', r⟩ :=
      (fillTris_toggle SoupVertex.alpha F (fun _ _ => rfl) lumps lumps.mpFaces).2 ta hta
    rw [htb] at htb'
    cases htb'
    exact r
  have r5 : List.Forall₂ (Swap23 SoupVertex.texIndex) ta tb := by
    obtain ⟨tb', htb', r⟩ :=
      (fillTris_toggle SoupVertex.texIndex F (fun _ _ => rfl) lumps lumps.mpFaces).2 ta hta
    rw [htb] at htb'
    cases htb'
    exact r
  have hn' : countTris { lumps with mClockwise := false } lumps.mpFaces = .ok n := by
    rw [countTris_clockwise lumps false, ← countTris_clockwise lumps true]
    exact hn
  obtain ⟨b, hb, b0, b1, b2, b3, b4, b5⟩ := construct_of_passes F lumps false n tb hn' htb
  refine ⟨b, hb, ?_, ?_, ?_, ?_, ?_, ?_⟩
  · unfold GetNumTris
    rw [b0, e0]
  · unfold GetNumTris
    rw [e0, e1, b1, ← hlen]
    exact swapped_of_forall₂ _ ta tb r1
  · unfold GetNumTris
    rw [e0, e2, b2, ← hlen]
    exact swapped_of_forall₂ _ ta tb r2
  · unfold GetNumTris
    rw [e0, e3, b3, ← hlen]
    exact swapped_of_forall₂ _ ta tb r3
  · unfold GetNumTris
    rw [e0, e6, b4, ← hlen]
    exact swapped_of_forall₂ _ ta tb r4
  · unfold GetNumTris
    rw [e0, e7, b5, ← hlen]
    exact swapped_of_forall₂ _ ta tb r5

/-- C10 at a concrete input: the level made of one flat quad, constructed clockwise, has the
triangles (v0, v1, v2), (v0, v2, v3); constructed counter-clockwise it has 2 triangles again,
with the last two vertices of each exchanged. -/
theorem C10_winding_toggle_witness :
    construct plainOps (oneFaceMap quadFace) true = .ok quadSoup
    ∧ quadSoup.mpPositions = [⟨0, 0, 0⟩, ⟨1, 0, 0⟩, ⟨1, 1, 0⟩, ⟨0, 0, 0⟩, ⟨1, 1, 0⟩, ⟨0, 1, 0⟩]
    ∧ ∃ b, construct plainOps (oneFaceMap quadFace) false = .ok b
        ∧ GetNumTris b = GetNumTris quadSoup
        ∧ SwappedLastTwo quadSoup.mpPositions b.mpPositions (GetNumTris quadSoup) :=
  ⟨rfl, rfl,
    match (C10_winding_toggle plainOps (oneFaceMap quadFace)).1 quadSoup rfl with
    | ⟨b, hb, hn, hp, _⟩ => ⟨b, hb, hn, hp⟩⟩

/-! ## The generic lump decoder -/

/-- The first vertex `GetSurfEdgeVerts` returns is the ring vertex of the surfedge. -/
theorem GetSurfEdgeVerts_ring (m : BSPMap) (index : Int) (ab : Vector × Vector)
    (h : GetSurfEdgeVerts m index = some ab) : IsRingVertex m index ab.1 := by
  unfold GetSurfEdgeVerts at h
  split_ifs at h with h0
  split at h
  · cases h
  · rename_i s hs
    split at h
    · cases h
    · rename_i e he
      split at h
      · rename_i a b ha hb
        cases h
        refine ⟨not_lt.mp h0, s, e, hs, ?_⟩
        by_cases hsign : s ≥ 0
        · rw [if_pos hsign] at he ha
          exact Or.inl ⟨hsign, he, ha⟩
        · rw [if_neg hsign] at he ha
          exact Or.inr ⟨not_le.mp hsign, he, ha⟩
      · cases h

/-- Every entry of a reconstructed ring is the ring vertex of its surfedge. -/
theorem ringVerts_get (m : BSPMap) (first : Int) (n : Nat) (ring : List Vector)
    (h : ringVerts m first n = some ring) (i : Nat) (hi : i < n) :
    ∃ v, ring[i]? = some v ∧ IsRingVertex m (first + i) v := by
  induction n generalizing ring with
  | zero => exact absurd hi (Nat.not_lt_zero i)
  | succ k ih =>
    unfold ringVerts at h
    split at h
    · rename_i r ab hr hab
      cases h
      have hlen := length_ringVerts m first k r hr
      by_cases hik : i < k
      · obtain ⟨v, hv, hring⟩ := ih r hr hik
        refine ⟨v, ?_, hring⟩
        rw [List.getElem?_append_left (by omega)]
        exact hv
      · have e : i = k := by omega
        subst e
        refine ⟨ab.1, ?_, GetSurfEdgeVerts_ring m _ ab hab⟩
        rw [List.getElem?_append_right (by omega), hlen]
        simp
    · cases h

/-- C12. For every face whose ring is reconstructed and every position `i` in its surfedge
range, entry `i` of the ring is the ring vertex of surfedge `firstEdge + i`: with `s` the
signed value stored there, the `vertex0` endpoint of `Edge[s]` when `s ≥ 0` and the `vertex1`
endpoint of `Edge[-s]` when `s < 0`; the same holds of the vertex `GetSurfEdgeVerts` returns. -/
theorem C12_ring_vertex (m : BSPMap) (f : Face) :
    (∀ ring, ringVerts m f.firstEdge f.edgeCount.toNat = some ring →
      ∀ i : Nat, (i : Int) < f.edgeCount →
        ∃ v, ring[i]? = some v ∧ IsRingVertex m (f.firstEdge + i) v)
    ∧ (∀ index ab, GetSurfEdgeVerts m index = some ab → IsRingVertex m index ab.1) := by
  refine ⟨fun ring h i hi => ?_, fun index ab h => GetSurfEdgeVerts_ring m index ab h⟩
  exact ringVerts_get m f.firstEdge _ ring h i (by omega)

/-- C12 at a concrete input: the fourth surfedge of the quad is -4, edge 4 runs from vertex 0
to vertex 3, and the fourth ring vertex is vertex 3. -/
theorem C12_ring_vertex_witness :
    ringVerts (oneFaceMap quadFace) quadFace.firstEdge quadFace.edgeCount.toNat
        = some [⟨0, 0, 0⟩, ⟨1, 0, 0⟩, ⟨1, 1, 0⟩, ⟨0, 1, 0⟩]
    ∧ ∃ v, [(⟨0, 0, 0⟩ : Vector), ⟨1, 0, 0⟩, ⟨1, 1, 0⟩, ⟨0, 1, 0⟩][3]? = some v
        ∧ IsRingVertex (oneFaceMap quadFace) (quadFace.firstEdge + (3 : Nat)) v :=
  ⟨rfl, (C12_ring_vertex (oneFaceMap quadFace) quadFace).1 _ rfl 3 (by decide)⟩

/-! ## The sections of an accepted sub-lump -/

/-- C13. Whenever `ParseStaticPropLump` returns `true`, the dictionary records start at
`offset + 4`, the leaf records at `offset + 8 + d * sizeof(dict)`, the prop records at
`offset + 12 + d * sizeof(dict) + l * sizeof(leaf)`: each section starts 4 bytes (the next
count) after the end of the one before, the prop section ends exactly at `offset + length`,
which is inside the file, and so for every index in `[0, p)` the prop record read by
`GetStaticPropInternal`, and for every dictionary index in `[0, d)` the dictionary record,
lies between the start of its section and the end of that section, inside the file. -/
theorem C13_sections_inside (L : Layout) (hL : L.WF) (m : BSPMap) (g : GameLump) (hg : g.WF)
    (ptrOut : Nat) (h : (ParseStaticPropLump L m g ptrOut).outcome = .returned true) :
    ((ParseStaticPropLump L m g ptrOut).map.mpStaticPropDict = g.offset.toNat + 4
      ∧ (ParseStaticPropLump L m g ptrOut).map.mpStaticPropLeaves = g.offset.toNat + 8
          + (ParseStaticPropLump L m g ptrOut).map.mNumStaticPropDictEntries * L.szDict
      ∧ (ParseStaticPropLump L m g ptrOut).ptrOut = g.offset.toNat + 12
          + (ParseStaticPropLump L m g ptrOut).map.mNumStaticPropDictEntries * L.szDict
          + (ParseStaticPropLump L m g ptrOut).map.mNumStaticPropLeaves * L.szLeaf)
    ∧ (((ParseStaticPropLump L m g ptrOut).ptrOut
          + (ParseStaticPropLump L m g ptrOut).map.mNumStaticProps.toNat * L.szProp : Nat) : Int)
        = g.offset + g.length
    ∧ (0 ≤ g.offset ∧ g.offset + g.length ≤ m.mDataSize)
    ∧ (∀ index : Int, 0 ≤ index → index < (ParseStaticPropLump L m g ptrOut).map.mNumStaticProps →
        (ParseStaticPropLump L m g ptrOut).ptrOut
            ≤ (ParseStaticPropLump L m g ptrOut).ptrOut + index.toNat * L.szProp
        ∧ (ParseStaticPropLump L m g ptrOut).ptrOut + index.toNat * L.szProp + L.szProp
            ≤ (ParseStaticPropLump L m g ptrOut).ptrOut
              + (ParseStaticPropLump L m g ptrOut).map.mNumStaticProps.toNat * L.szProp
        ∧ (ParseStaticPropLump L m g ptrOut).ptrOut + index.toNat * L.szProp + L.szProp
            ≤ m.mDataSize)
    ∧ (∀ dictIdx : Nat,
        dictIdx < (ParseStaticPropLump L m g ptrOut).map.mNumStaticPropDictEntries →
        (ParseStaticPropLump L m g ptrOut).map.mpStaticPropDict
            ≤ (ParseStaticPropLump L m g ptrOut).map.mpStaticPropDict + dictIdx * L.szDict
        ∧ (ParseStaticPropLump L m g ptrOut).map.mpStaticPropDict + dictIdx * L.szDict
              + L.szDict + 4
            ≤ (ParseStaticPropLump L m g ptrOut).map.mpStaticPropLeaves
        ∧ (ParseStaticPropLump L m g ptrOut).map.mpStaticPropDict + dictIdx * L.szDict
              + L.szDict ≤ m.mDataSize) := by
  obtain ⟨o0, hlen, hsum, ⟨d0, -⟩, ⟨l0, -⟩, ⟨p0, -⟩, hsz⟩ :=
    accepted_facts L hL m g hg ptrOut h
  have hd := int32At_isInt32 m.mpData g.offset.toNat
  have hl := int32At_isInt32 m.mpData (leafCountAddr L m g)
  have hp := int32At_isInt32 m.mpData (propCountAddr L m g)
  obtain ⟨-, b1, k1⟩ := toSizeT_mul_size hd d0 hL.1.2
  obtain ⟨-, b2, k2⟩ := toSizeT_mul_size hl l0 hL.2.1.2
  obtain ⟨-, b3, k3⟩ := toSizeT_mul_size hp p0 hL.2.2.2
  change ((dictCount m g).toNat * L.szDict : Nat) < _ at b1
  change (((dictCount m g).toNat * L.szDict : Nat) : Int) = dictCount m g * L.szDict at k1
  change ((leafCount L m g).toNat * L.szLeaf : Nat) < _ at b2
  change (((leafCount L m g).toNat * L.szLeaf : Nat) : Int) = leafCount L m g * L.szLeaf at k2
  change ((propCount L m g).toNat * L.szProp : Nat) < _ at b3
  change (((propCount L m g).toNat * L.szProp : Nat) : Int) = propCount L m g * L.szProp at k3
  have hle : g.offset + g.length ≤ m.mDataSize := by
    obtain ⟨⟨ho1, ho2⟩, hl1, hl2⟩ := hg
    unfold toSizeT wrapInt32 at hsum
    unfold derivedSize at hsz
    omega
  have hend : ((propCountAddr L m g + 4 + (propCount L m g).toNat * L.szProp : Nat) : Int)
      = g.offset + g.length := by
    unfold derivedSize at hsz
    unfold propCountAddr leafCountAddr
    omega
  rw [parse_true_map L hL m g hg ptrOut h]
  dsimp only
  refine ⟨⟨rfl, ?_, ?_⟩, hend, ⟨o0, hle⟩, ?_, ?_⟩
  · unfold leafCountAddr; omega
  · unfold propCountAddr leafCountAddr; omega
  · intro index hi0 hip
    have hstep : index.toNat * L.szProp + L.szProp ≤ (propCount L m g).toNat * L.szProp := by
      have : index.toNat + 1 ≤ (propCount L m g).toNat := by omega
      calc index.toNat * L.szProp + L.szProp = (index.toNat + 1) * L.szProp := by ring
        _ ≤ (propCount L m g).toNat * L.szProp := Nat.mul_le_mul_right _ this
    refine ⟨Nat.le_add_right _ _, by omega, ?_⟩
    omega
  · intro dictIdx hdi
    have hstep : dictIdx * L.szDict + L.szDict ≤ (dictCount m g).toNat * L.szDict := by
      have : dictIdx + 1 ≤ (dictCount m g).toNat := hdi
      calc dictIdx * L.szDict + L.szDict = (dictIdx + 1) * L.szDict := by ring
        _ ≤ (dictCount m g).toNat * L.szDict := Nat.mul_le_mul_right _ this
    refine ⟨Nat.le_add_right _ _, ?_, ?_⟩
    · unfold leafCountAddr; omega
    · unfold propCountAddr leafCountAddr at hend
      omega

/-- C13 at a concrete input: in the accepted 324-byte sub-lump the dictionary starts at byte
4, the leaf section at byte 264, the prop section at byte 268 and ends at byte 324. -/
theorem C13_sections_inside_witness :
    (ParseStaticPropLump layoutV4 (BSPMap.fresh twoDictData 324) twoDictLump 0).outcome
        = .returned true
    ∧ (ParseStaticPropLump layoutV4 (BSPMap.fresh twoDictData 324) twoDictLump 0).map.mpStaticPropDict
        = 4
    ∧ (ParseStaticPropLump layoutV4 (BSPMap.fresh twoDictData 324) twoDictLump 0).map.mpStaticPropLeaves
        = 264
    ∧ (ParseStaticPropLump layoutV4 (BSPMap.fresh twoDictData 324) twoDictLump 0).ptrOut = 268
    ∧ (((ParseStaticPropLump layoutV4 (BSPMap.fresh twoDictData 324) twoDictLump 0).ptrOut
          + (ParseStaticPropLump layoutV4 (BSPMap.fresh twoDictData 324)
              twoDictLump 0).map.mNumStaticProps.toNat * layoutV4.szProp : Nat) : Int)
        = twoDictLump.offset + twoDictLump.length :=
  ⟨by decide, by decide, by decide, by decide,
    (C13_sections_inside layoutV4 (by decide) (BSPMap.fresh twoDictData 324) twoDictLump
      (by decide) 0 (by decide)).2.1⟩

/-! ## Declared lengths below 12 -/

/-- Supporting result for C14: a declared length below 12 is never accepted, and when it is
not negative the call returns `false` (before any count is read). -/
theorem ParseStaticPropLump_short_length (L : Layout) (hL : L.WF) (m : BSPMap) (g : GameLump)
    (hg : g.WF) (ptrOut : Nat) (hshort : g.length < 12) :
    (ParseStaticPropLump L m g ptrOut).outcome ≠ .returned true
    ∧ (0 ≤ g.length →
        (ParseStaticPropLump L m g ptrOut).outcome = .returned false
        ∧ (ParseStaticPropLump L m g ptrOut).reads = []) := by
  constructor
  · intro h
    have := (accepted_facts L hL m g hg ptrOut h).2.1
    omega
  · intro h0
    have hlenT : toSizeT g.length = g.length.toNat := toSizeT_of_nonneg h0 (by omega)
    unfold ParseStaticPropLump
    dsimp only
    by_cases c1 : g.offset < 0 ∨ toSizeT (wrapInt32 (g.offset + g.length)) > m.mDataSize
    · rw [if_pos c1]
      exact ⟨rfl, rfl⟩
    · rw [if_neg c1, if_pos (by omega)]
      exact ⟨rfl, rfl⟩

/-- C14 (the code at the failing input). In a file of 4096 bytes, the game-lump entry with
offset 4096 and length -4 (below 12) is not rejected by `12 > length`, the length being
converted to `size_t`; `ParseStaticPropLump` goes on to read the first count at byte 4096,
outside the file, instead of returning `false`. -/
theorem C14_negative_length_not_rejected :
    tailLump.WF ∧ tailLump.length < 12
    ∧ ¬ ((4 * 3 : Nat) > toSizeT tailLump.length)
    ∧ (ParseStaticPropLump layoutV4 (BSPMap.fresh zeroData 4096) tailLump 0).outcome
        ≠ .returned false
    ∧ (ParseStaticPropLump layoutV4 (BSPMap.fresh zeroData 4096) tailLump 0).outcome
        = .invalidRead 4096 := by
  decide

/-! ## Replacing the prop count -/

/-- C15. For every accepted sub-lump, replacing only the prop count by any different `int32`
value, with the rest of the file and the declared length unchanged, makes
`ParseStaticPropLump` return `false`: the accepted prop count is determined by the length
and the first two counts, `p = (length - 12 - d * sizeof(dict) - l * sizeof(leaf)) /
sizeof(prop)`, the division being exact. -/
theorem C15_prop_count_unique (L : Layout) (hL : L.WF) (m : BSPMap) (g : GameLump) (hg : g.WF)
    (ptrOut : Nat) (h : (ParseStaticPropLump L m g ptrOut).outcome = .returned true) :
    (∀ v : Int, IsInt32 v → v ≠ propCount L m g →
      (ParseStaticPropLump L (m.withCount (propCountAddr L m g) v) g ptrOut).outcome
        = .returned false)
    ∧ propCount L m g
        = (g.length - 12 - dictCount m g * L.szDict - leafCount L m g * L.szLeaf) / L.szProp
    ∧ propCount L m g * L.szProp
        = g.length - 12 - dictCount m g * L.szDict - leafCount L m g * L.szLeaf := by
  obtain ⟨o0, hlen, hsum, ⟨d0, d1⟩, ⟨l0, l1⟩, ⟨p0, p1⟩, hsz⟩ :=
    accepted_facts L hL m g hg ptrOut h
  have hP0 : (L.szProp : Int) ≠ 0 := by
    have := hL.2.2.1
    omega
  have hprod : propCount L m g * L.szProp
      = g.length - 12 - dictCount m g * L.szDict - leafCount L m g * L.szLeaf := by
    unfold derivedSize at hsz
    omega
  refine ⟨fun v hv hne => ?_, ?_, hprod⟩
  · have hA := leafCountAddr_ge L m g
    have hB := propCountAddr_ge L m g
    have eD : dictCount (m.withCount (propCountAddr L m g) v) g = dictCount m g := by
      rw [dictCount_withCount]
      exact int32At_store_other _ _ _ _ (by omega)
    have eLA := leafCountAddr_congr L m _ g eD
    have eL : leafCount L (m.withCount (propCountAddr L m g) v) g = leafCount L m g := by
      rw [leafCount_withCount, eLA]
      exact int32At_store_other _ _ _ _ (by omega)
    have ePA := propCountAddr_congr L m _ g eLA eL
    have eP : propCount L (m.withCount (propCountAddr L m g) v) g = v := by
      rw [propCount_withCount, ePA]
      exact int32At_store_same _ _ hv
    apply returned_false_of_not_accept L hL _ g hg ptrOut (by omega)
    rintro ⟨-, -, -, hs⟩
    unfold derivedSize at hs hsz
    rw [eD, eL, eP] at hs
    exact hne (Int.eq_of_mul_eq_mul_right hP0 (by omega))
  · rw [← hprod]
    exact (Int.mul_ediv_cancel _ hP0).symm

/-- C15 at a concrete input: the accepted 324-byte sub-lump holds prop count 1; with 3 stored
in its place the call returns `false`. -/
theorem C15_prop_count_unique_witness :
    (ParseStaticPropLump layoutV4 (BSPMap.fresh twoDictData 324) twoDictLump 0).outcome
        = .returned true
    ∧ propCount layoutV4 (BSPMap.fresh twoDictData 324) twoDictLump = 1
    ∧ (ParseStaticPropLump layoutV4
          ((BSPMap.fresh twoDictData 324).withCount
            (propCountAddr layoutV4 (BSPMap.fresh twoDictData 324) twoDictLump) 3)
          twoDictLump 0).outcome = .returned false :=
  ⟨by decide, by decide,
    (C15_prop_count_unique layoutV4 (by decide) (BSPMap.fresh twoDictData 324) twoDictLump
      (by decide) 0 (by decide)).1 3 (by decide) (by decide)⟩

/-! ## What a call leaves untouched -/

/-- The frame of `ParseStaticPropLump`: a call that returns `false` leaves the prop count and
the caller's pointer as they were, and no call changes a member other than the two
dictionary members, the two leaf members and the prop count. -/
theorem parse_frame (L : Layout) (m : BSPMap) (g : GameLump) (ptrOut : Nat) (r : ParseResult)
    (hr : ParseStaticPropLump L m g ptrOut = r) :
    (r.outcome = .returned false → r.map.mNumStaticProps = m.mNumStaticProps ∧ r.ptrOut = ptrOut)
    ∧ ∃ dp dn lp ln np, r.map =
        { m with
          mpStaticPropDict := dp
          mNumStaticPropDictEntries := dn
          mpStaticPropLeaves := lp
          mNumStaticPropLeaves := ln
          mNumStaticProps := np } := by
  unfold ParseStaticPropLump at hr
  dsimp only at hr
  split_ifs at hr <;> subst hr <;> refine ⟨fun h => ?_, ⟨_, _, _, _, _, rfl⟩⟩ <;>
    first
      | exact ⟨rfl, rfl⟩
      | cases h

/-- C16. Whenever `ParseStaticPropLump` returns `false`, the stored prop count and the
caller's output pointer are unchanged, so from a state with prop count 0 a failed call leaves
`GetStaticPropInternal` throwing `out_of_range` for every index (and every record pointer);
and in every case the instance afterwards differs from the instance before in no member
other than the dictionary pointer and count, the leaf pointer and count and the prop count. -/
theorem C16_failed_parse_frame (L : Layout) (m : BSPMap) (g : GameLump) (ptrOut : Nat) :
    ((ParseStaticPropLump L m g ptrOut).outcome = .returned false →
      (ParseStaticPropLump L m g ptrOut).map.mNumStaticProps = m.mNumStaticProps
      ∧ (ParseStaticPropLump L m g ptrOut).ptrOut = ptrOut
      ∧ (m.mNumStaticProps = 0 → ∀ index pStaticProps, ∃ msg,
          GetStaticPropInternal L (ParseStaticPropLump L m g ptrOut).map index pStaticProps
            = .error (.out_of_range msg)))
    ∧ ∃ dp dn lp ln np, (ParseStaticPropLump L m g ptrOut).map =
        { m with
          mpStaticPropDict := dp
          mNumStaticPropDictEntries := dn
          mpStaticPropLeaves := lp
          mNumStaticPropLeaves := ln
          mNumStaticProps := np } := by
  obtain ⟨hkeep, hframe⟩ := parse_frame L m g ptrOut _ rfl
  refine ⟨fun hfalse => ?_, hframe⟩
  obtain ⟨hn, hp⟩ := hkeep hfalse
  refine ⟨hn, hp, fun h0 index pStaticProps => ?_⟩
  unfold GetStaticPropInternal
  rw [hn, h0, if_pos (by omega)]
  exact ⟨_, rfl⟩

/-- C16 at a concrete input: the 68-byte sub-lump declared one byte short is refused, the
prop count of the fresh instance stays 0 and the accessor throws at index 0. -/
theorem C16_failed_parse_frame_witness :
    (ParseStaticPropLump layoutV4 (BSPMap.fresh onePropData 68) shortLump 0).outcome
        = .returned false
    ∧ (ParseStaticPropLump layoutV4 (BSPMap.fresh onePropData 68) shortLump 0).map.mNumStaticProps
        = 0
    ∧ ∃ msg, GetStaticPropInternal layoutV4
        (ParseStaticPropLump layoutV4 (BSPMap.fresh onePropData 68) shortLump 0).map 0 12
          = .error (.out_of_range msg) :=
  ⟨by decide,
    ((C16_failed_parse_frame layoutV4 (BSPMap.fresh onePropData 68) shortLump 0).1
      (by decide)).1,
    ((C16_failed_parse_frame layoutV4 (BSPMap.fresh onePropData 68) shortLump 0).1
      (by decide)).2.2 rfl 0 12⟩

end BSPParser
